import Mathlib

/-!
Verification of the conversational order-orchestration engine of the
pizzaria WhatsApp bot (`src/index.js`).

The JavaScript source is shallowly embedded: strings are lists of
characters, JavaScript regular-expression tests used by the code are
translated into explicit scanning functions, Mongoose documents become
Lean structures threaded functionally, and every external effect (the
language-model call, the CEP geocoding API, database item lookups, audio
synthesis, the `canvas` module, `JSON.parse`) is a parameter of an
environment record, so that the control flow and state mutations of the
source are reproduced exactly while the outside world stays abstract.

Persisted `Pedido` rows are modelled as a list that commits append to;
a conversation document is the `Conversa` structure returned by each
turn.  Each embedded definition cites the line numbers of the function
it translates.
-/

set_option maxRecDepth 4000

namespace Pizzaria

/-- Strings are modelled as lists of characters (JavaScript strings). -/
abbrev Str := List Char

/-- Literal coercion from a Lean string. -/
def lit (s : String) : Str := s.data

/-- JavaScript `\d` digit test. -/
def isDig (c : Char) : Bool := '0' ≤ c && c ≤ '9'

/-- JavaScript `\s` whitespace class (the members that occur in practice). -/
def isWs (c : Char) : Bool :=
  c = ' ' || c = '\t' || c = '\n' || c = '\r' || c = '\x0b' || c = '\x0c'

/-- JavaScript `toLowerCase` restricted to ASCII letters and the accented
uppercase letters that occur in the bot's Portuguese vocabulary. -/
def jsToLower (c : Char) : Char :=
  if 'A' ≤ c && c ≤ 'Z' then Char.ofNat (c.toNat + 32)
  else if c = 'Á' then 'á' else if c = 'À' then 'à'
  else if c = 'Â' then 'â' else if c = 'Ã' then 'ã'
  else if c = 'É' then 'é' else if c = 'Ê' then 'ê'
  else if c = 'Í' then 'í' else if c = 'Ó' then 'ó'
  else if c = 'Ô' then 'ô' else if c = 'Õ' then 'õ'
  else if c = 'Ú' then 'ú' else if c = 'Ü' then 'ü'
  else if c = 'Ç' then 'ç' else c

/-- Lower-case an entire string (JavaScript `str.toLowerCase()`). -/
def lowerStr (s : Str) : Str := s.map jsToLower

/-- JavaScript `String.prototype.trim`. -/
def trimStr (s : Str) : Str :=
  ((s.dropWhile isWs).reverse.dropWhile isWs).reverse

/-- Split a string at the first occurrence of `pat`, returning the parts
before and after the occurrence.  `none` when `pat` does not occur. -/
def splitFirst (s pat : Str) : Option (Str × Str) :=
  if pat.isPrefixOf s then some ([], s.drop pat.length)
  else
    match s with
    | [] => none
    | c :: rest => (splitFirst rest pat).map (fun p => (c :: p.1, p.2))

/-- JavaScript `String.prototype.includes`. -/
def strContains (s pat : Str) : Bool := (splitFirst s pat).isSome

/-- Substring after the first occurrence of `pat` (`none` if absent). -/
def afterFirst (s pat : Str) : Option Str := (splitFirst s pat).map Prod.snd

/-- JavaScript `str.replace(pat, repl)` with a string pattern: replaces
only the first occurrence. -/
def replaceFirst (s pat repl : Str) : Str :=
  match splitFirst s pat with
  | none => s
  | some (a, b) => a ++ repl ++ b

/-- JavaScript `str.replaceAll(pat, repl)` for a non-empty pattern. -/
def replaceAllAux : Nat → Str → Str → Str → Str
  | 0, s, _, _ => s
  | fuel + 1, s, pat, repl =>
    match splitFirst s pat with
    | none => s
    | some (a, b) => a ++ repl ++ replaceAllAux fuel b pat repl

/-- JavaScript `str.replaceAll(pat, repl)`. -/
def replaceAll (s pat repl : Str) : Str := replaceAllAux s.length s pat repl

/-- JavaScript `str.split(sep)` (full split, non-empty separator). -/
def splitAllAux : Nat → Str → Str → List Str
  | 0, s, _ => [s]
  | fuel + 1, s, sep =>
    match splitFirst s sep with
    | none => [s]
    | some (a, b) => a :: splitAllAux fuel b sep

/-- JavaScript `str.split(sep)`. -/
def splitAll (s sep : Str) : List Str := splitAllAux s.length s sep

/-- JavaScript `str.split(sep)[1]`: the segment between the first and
second occurrence of the separator (`none` when the separator is absent,
mirroring an `undefined` array entry). -/
def splitSegment1 (s sep : Str) : Option Str :=
  match splitFirst s sep with
  | none => none
  | some (_, r) =>
    match splitFirst r sep with
    | none => some r
    | some (a, _) => some a

/-- Regex `/\d+/.test(s)`. -/
def hasDigit (s : Str) : Bool := s.any isDig

/-- Regex `/^\s*\d+\s*$/.test(s)`: optional whitespace around a non-empty
run of digits and nothing else. -/
def digitsOnly (s : Str) : Bool :=
  let t := s.dropWhile isWs
  let d := t.takeWhile isDig
  !d.isEmpty && (t.drop d.length).all isWs

/-- Regex `/\d{5}-?\d{3}/.test(s)` (the state-4 CEP sniff,
`src/index.js:997`): somewhere in `s`, five digits, an optional hyphen,
then three digits. -/
def hasCEP : Str → Bool
  | [] => false
  | s@(_ :: rest) =>
    (match s.take 5 with
     | five =>
       if five.length = 5 && five.all isDig then
         let r := s.drop 5
         let r := if r.head? = some '-' then r.drop 1 else r
         (r.take 3).length = 3 && (r.take 3).all isDig
       else false) || hasCEP rest

/-- Regex `/(\d{5})-?\s*?(\d{3})/.test(s)` (the inbound CEP detector,
`src/index.js:367`): five digits, optional hyphen, optional whitespace,
three digits. -/
def cepDetect : Str → Bool
  | [] => false
  | s@(_ :: rest) =>
    (if (s.take 5).length = 5 && (s.take 5).all isDig then
       let r := s.drop 5
       let r := if r.head? = some '-' then r.drop 1 else r
       let r := r.dropWhile isWs
       (r.take 3).length = 3 && (r.take 3).all isDig
     else false) || cepDetect rest

/-- Regex `/,\s*(\d+)/`: first capture of digits after a comma and
optional whitespace (`src/index.js:1007` and `2387`). -/
def findCommaNumber : Str → Option Str
  | [] => none
  | ',' :: rest =>
    let r := rest.dropWhile isWs
    let d := r.takeWhile isDig
    if !d.isEmpty then some d else findCommaNumber rest
  | _ :: rest => findCommaNumber rest

/-- Regex `/<kw>\s+(\d+)/i` applied to a lower-cased string: scan for the
keyword, require at least one whitespace, capture the digits
(`src/index.js:2386`). -/
def findKwNumber (kw : Str) : Str → Option Str
  | [] => none
  | s@(_ :: rest) =>
    (if kw.isPrefixOf s then
       let r := s.drop kw.length
       let ws := r.takeWhile isWs
       if ws.isEmpty then none
       else
         let d := (r.dropWhile isWs).takeWhile isDig
         if d.isEmpty then none else some d
     else none).orElse (fun _ => findKwNumber kw rest)

/-- Regex `/n[º°]\s*(\d+)/i` on a lower-cased string
(`src/index.js:2388`). -/
def findNumAbbrev : Str → Option Str
  | [] => none
  | 'n' :: c :: rest =>
    if c = 'º' || c = '°' then
      let r := rest.dropWhile isWs
      let d := r.takeWhile isDig
      if !d.isEmpty then some d else findNumAbbrev (c :: rest)
    else findNumAbbrev (c :: rest)
  | _ :: rest => findNumAbbrev rest

/-- Regex `/\?$/.test(s)`: the string ends with a question mark. -/
def endsWithQuestion (s : Str) : Bool := s.getLast? = some '?'

/-- The closing tag `[/END]` of the tagged-block protocol. -/
def endTok : Str := lit "[/END]"

/-- `[TEXT_FORMAT]` opening tag. -/
def textOpenTok : Str := lit "[TEXT_FORMAT]"

/-- `[VOICE_FORMAT]` opening tag. -/
def voiceOpenTok : Str := lit "[VOICE_FORMAT]"

/-- `[IMAGE_FORMAT]` opening tag. -/
def imageOpenTok : Str := lit "[IMAGE_FORMAT]"

/-- `[JSON_FORMAT]` opening tag. -/
def jsonOpenTok : Str := lit "[JSON_FORMAT]"

/-- `[CONFIRMATION_FORMAT]` opening tag. -/
def confOpenTok : Str := lit "[CONFIRMATION_FORMAT]"

/-- Non-global regex `s.match(/\[TAG\]([\s\S]*?)\[\/END\]/)`: payload of
the first occurrence of `openTag … [/END]` (non-greedy, so the payload
ends at the first closing tag after the first opening tag).  A leftmost
regex match exists exactly when the first opening tag is followed by a
closing tag, which is what this computes. -/
def extractBlock (openTag : Str) (s : Str) : Option Str :=
  match splitFirst s openTag with
  | none => none
  | some (_, r) =>
    match splitFirst r endTok with
    | none => none
    | some (payload, _) => some payload

/-- The global loop over `/\[IMAGE_FORMAT\]([\s\S]*?)\[\/END\]/g`
(`src/index.js:1131-1139`): every payload in document order, trimmed,
dropping payloads that are empty or whitespace-only. -/
def extractAllBlocksAux (openTag : Str) : Nat → Str → List Str
  | 0, _ => []
  | fuel + 1, s =>
    match splitFirst s openTag with
    | none => []
    | some (_, r) =>
      match splitFirst r endTok with
      | none => []
      | some (payload, rest) =>
        if (trimStr payload).isEmpty then extractAllBlocksAux openTag fuel rest
        else trimStr payload :: extractAllBlocksAux openTag fuel rest

/-- All `[IMAGE_FORMAT]…[/END]` payloads of a model output, in document
order (trimmed, empties dropped), as collected at `src/index.js:1131`. -/
def extractAllBlocks (openTag : Str) (s : Str) : List Str :=
  extractAllBlocksAux openTag s.length s

/-- Truthiness of an optional string under JavaScript coercion:
`undefined` and the empty string are falsy. -/
def truthyS : Option Str → Bool
  | none => false
  | some s => !s.isEmpty

/-- Interpolation of a possibly-`undefined` string into a template
literal (JavaScript prints `undefined`). -/
def jsShow : Option Str → Str
  | none => lit "undefined"
  | some s => s

/-- JavaScript `item.quantidade || 1`: an absent quantity — and, by
falsiness, an explicit `0` — becomes `1`. -/
def jsQty : Option Nat → Nat
  | none => 1
  | some 0 => 1
  | some (n + 1) => n + 1

/-- `Nat` to decimal digits. -/
def natToStr (n : Nat) : Str := Nat.toDigits 10 n

/-- JavaScript `x.toFixed(2)` on a non-negative amount given in integer
centavos. -/
def toFixed2 (cents : Int) : Str :=
  let n : Nat := cents.toNat
  natToStr (n / 100) ++ lit "." ++
    (if n % 100 < 10 then lit "0" else []) ++ natToStr (n % 100)

/-! ## Data model (Mongoose documents and in-memory shapes) -/

/-- Sender of a conversation message (`tipo: 'user' | 'bot'`). -/
inductive Role
  | user
  | bot
deriving DecidableEq, Repr

/-- One entry of `conversa.mensagens` (timestamps are irrelevant to the
verified properties and omitted). -/
structure Msg where
  tipo : Role
  conteudo : Str
deriving DecidableEq, Repr

/-- `addressData.components` as produced by `detectAndValidateCEP`
(`src/index.js:385-391`); absent fields are JavaScript `undefined`. -/
structure Components where
  street : Option Str := none
  neighborhood : Option Str := none
  city : Option Str := none
  state : Option Str := none
  cep : Option Str := none
deriving DecidableEq, Repr

/-- `conversa.addressData`. -/
structure AddressData where
  formattedAddress : Option Str := none
  components : Option Components := none
deriving DecidableEq, Repr

/-- One item of an order payload (`{nome, quantidade, preco}`).  Price
amounts are JavaScript numbers; they are modelled in integer centavos,
which is exact for everything the code does with them (sums, products
with integer quantities, and `toFixed(2)` formatting).  A missing
`quantidade` is `none`. -/
structure PedidoItem where
  nome : Str
  quantidade : Option Nat := none
  preco : Int
deriving DecidableEq, Repr

/-- A staged order payload (`conversa.pedidoData`): `items` is `none`
when the field is absent or not an array, `endereco`/`pagamento` are
`none` when absent; `total` models a model-supplied total field, which
the code never reads. -/
structure PedidoData where
  items : Option (List PedidoItem) := none
  endereco : Option Str := none
  pagamento : Option Str := none
  total : Option Int := none
deriving DecidableEq, Repr

/-- Result of `JSON.parse` on a `[JSON_FORMAT]` payload, restricted to
the fields the code reads: a nested `pedido` object and/or the flattened
fields (`src/index.js:1434-1438`). -/
structure JsonData where
  pedido : Option PedidoData := none
  items : Option (List PedidoItem) := none
  endereco : Option Str := none
  pagamento : Option Str := none
  total : Option Int := none
deriving DecidableEq, Repr

/-- The flattened wire shape read as a payload (`jsonData` itself used as
`pedidoData`). -/
def JsonData.flat (j : JsonData) : PedidoData :=
  { items := j.items, endereco := j.endereco, pagamento := j.pagamento,
    total := j.total }

/-- A persisted `Pedido` document (`src/index.js:1615-1627` and
`2430-2438`). -/
structure Pedido where
  telefone : Str
  itens : List PedidoItem
  valorTotal : Int
  endereco : Str
  formaPagamento : Str
  status : Str
deriving DecidableEq, Repr

/-- A `Conversa` document. -/
structure Conversa where
  telefone : Str
  state : Nat := 0
  mensagens : List Msg := []
  addressData : Option AddressData := none
  pedidoData : Option PedidoData := none
  pedidoId : Option Nat := none
  lastJsonData : Option Str := none
deriving DecidableEq, Repr

/-- A `CardapioItem` document (image URLs may be absent). -/
structure CardItem where
  nome : Str
  descricao : Option Str := none
  imagemGeral : Option Str := none
  imagemEsquerda : Option Str := none
  imagemDireita : Option Str := none
deriving DecidableEq, Repr

/-- The bot configuration fields the engine reads; `none` models an
absent or empty (falsy) field. -/
structure BotConfig where
  menuImage : Option Str := none
  menuImageCaption : Option Str := none
  confirmationImage : Option Str := none
  confirmationImageCaption : Option Str := none
deriving DecidableEq, Repr

/-- An outbound image reference.  `composite base top` records the result
of `overlayImages base top` (`src/index.js:828-875`): the canvas takes
the extent of `base`, `base` is drawn full-frame first, and `top` is
drawn full-frame over it. -/
inductive ImageVal
  | url (u : Str)
  | composite (base top : Str)
deriving DecidableEq, Repr

/-- An entry of `responseObj.allImages`. -/
structure ImgEntry where
  id : Str
  url : ImageVal
  caption : Option Str
deriving DecidableEq, Repr

/-- The per-turn API response object assembled by
`processTaggedResponse`. -/
structure ResponseObj where
  success : Bool := true
  state : Option Nat := none
  text : Option Str := none
  audio : Option Str := none
  image : Option ImageVal := none
  imageCaption : Option Str := none
  allImages : Option (List ImgEntry) := none
deriving DecidableEq, Repr

/-- Mutable stores outside the conversation document: the persisted
`Pedido` collection, the `tempPedidoData` map keyed by phone, and
`Conversa` rows created during a turn. -/
structure World where
  pedidos : List Pedido := []
  tempPedido : List (Str × PedidoData) := []
  conversas : List Conversa := []
deriving DecidableEq, Repr

/-- `tempPedidoData.set(phone, pd)`. -/
def World.setTemp (w : World) (phone : Str) (pd : PedidoData) : World :=
  { w with tempPedido := (phone, pd) :: w.tempPedido.filter (fun e => e.1 ≠ phone) }

/-- External collaborators, modelled as oracle functions: database item
lookups (each already filtered to `disponivel: true`), speech synthesis,
the `canvas` module, `JSON.parse`, the CEP API, the language model, and
the enrichment follow-up call. -/
structure Env where
  /-- `CardapioItem.findOne({identificador: id, disponivel: true})`. -/
  findItem : Str → Option CardItem
  /-- `CardapioItem.findOne({nome: {$regex: name, $options: i}, …})`. -/
  findItemByName : Str → Option CardItem
  /-- The broad `$or` lookup over identifier and name. -/
  findItemBroad : Str → Option CardItem
  /-- `generateAudio`: `none` models a failed or rejected synthesis. -/
  genAudio : Str → Option Str
  /-- Whether the canvas compositing inside `overlayImages` succeeds;
  on failure `overlayImages` itself catches and returns the base URL. -/
  overlayOk : Bool := true
  /-- Whether the `overlayImages` call throws synchronously (e.g. the
  `require('canvas')` outside its try block), reaching the caller's
  `mergeError` catch. -/
  overlayThrows : Bool := false
  /-- `JSON.parse` on a block payload: `none` models a parse error. -/
  parseJson : Str → Option JsonData
  /-- `detectAndValidateCEP`'s API result for a message that matched the
  CEP pattern (`none`: API error or no data). -/
  cepLookup : Str → Option AddressData
  /-- The OpenAI chat completion (`none`: the API call failed). -/
  model : Option Str := none
  /-- The enrichment completion for `[REQUEST_*]` follow-ups
  (`none`: the second call failed). -/
  enrich : Str → Option Str
  /-- Whether cached história/cardápio/pagamento data is available to
  build `additionalInfo` for the enrichment call. -/
  extraInfo : Bool := false
  /-- The cached `botConfig` passed to `processTaggedResponse`. -/
  botConfig : Option BotConfig := none

/-- `overlayImages(baseImageUrl, overlayImageUrl)`
(`src/index.js:828-883`): draw the base image first at the canvas extent,
then the overlay full-frame on top; any internal error is caught and the
plain base URL is returned instead. -/
def overlayImages (env : Env) (baseImageUrl overlayImageUrl : Str) : ImageVal :=
  if env.overlayOk then ImageVal.composite baseImageUrl overlayImageUrl
  else ImageVal.url baseImageUrl

/-! ## State-advance detector and image-request sniffing -/

/-- `checkIfShouldAdvanceState(botResponse, userMessage, currentState,
conversa)` (`src/index.js:921-1073`), the per-state keyword/regex
detector.  It returns a plain boolean in this implementation. -/
def checkIfShouldAdvanceState (botResponse userMessage : Str) (currentState : Nat)
    (conversa : Conversa) : Bool :=
  let userMsg := lowerStr userMessage
  match currentState with
  | 0 =>
    strContains userMsg (lit "pizza") || strContains userMsg (lit "tropicale") ||
    strContains userMsg (lit "amazonas") || strContains userMsg (lit "napolitana") ||
    strContains userMsg (lit "pedido") || strContains userMsg (lit "quero") ||
    strContains userMsg (lit "manda")
  | 1 =>
    let br := lowerStr botResponse
    let shouldAdvance1 :=
      strContains userMsg (lit "inteira") || strContains userMsg (lit "meio") ||
      strContains userMsg (lit "metade") ||
      (strContains br (lit "pizza") &&
        (strContains br (lit "grande") || strContains br (lit "média") ||
         strContains br (lit "pequena") || strContains br (lit "familia")))
    let isAskingForSize :=
      strContains br (lit "tamanho") || strContains br (lit "grande") ||
      strContains br (lit "média") || strContains br (lit "pequena")
    let isAskingForType :=
      strContains br (lit "inteira") || strContains br (lit "meio a meio")
    if isAskingForSize || isAskingForType then true else shouldAdvance1
  | 2 =>
    strContains userMsg (lit "finalizar") || strContains userMsg (lit "mais uma") ||
    strContains userMsg (lit "outra pizza")
  | 3 =>
    strContains userMsg (lit "sim") || strContains userMsg (lit "não") ||
    strContains userMsg (lit "nao") || strContains userMsg (lit "refrigerante") ||
    strContains userMsg (lit "guaraná") || strContains userMsg (lit "guarana") ||
    strContains userMsg (lit "coca") || strContains userMsg (lit "sem refrigerante") ||
    strContains userMsg (lit "sem bebida")
  | 4 =>
    if hasCEP userMsg && (findCommaNumber userMsg).isSome then true
    else if digitsOnly userMsg then true
    else hasDigit userMsg
  | 5 =>
    strContains userMsg (lit "débito") || strContains userMsg (lit "debito") ||
    strContains userMsg (lit "crédito") || strContains userMsg (lit "credito") ||
    strContains userMsg (lit "dinheiro") || strContains userMsg (lit "pix") ||
    strContains userMsg (lit "vr")
  | 6 =>
    let userConfirms :=
      strContains userMsg (lit "sim") || strContains userMsg (lit "confirmo") ||
      strContains userMsg (lit "correto") || strContains userMsg (lit "ok") ||
      strContains userMsg (lit "pode ser")
    let hasConfirmationTag := strContains botResponse confOpenTok
    let hasPedidoData :=
      match conversa.pedidoData with
      | none => false
      | some pd => pd.items.isSome && truthyS pd.endereco && truthyS pd.pagamento
    userConfirms && hasConfirmationTag && hasPedidoData
  | 7 => false
  | _ => false

/-- The hard-coded pizza vocabulary of `detectImageRequest`
(`src/index.js:742-755`): lower-case name fragment and identifier. -/
def pizzaTypes : List (Str × Str) :=
  [ (lit "amazonas", lit "pizza-salgada_pizza-amazonas"),
    (lit "porco & pinhão", lit "pizza-salgada_pizza-porco-e-pinhao"),
    (lit "porco e pinhão", lit "pizza-salgada_pizza-porco-e-pinhao"),
    (lit "porco e pinhao", lit "pizza-salgada_pizza-porco-e-pinhao"),
    (lit "tropicale", lit "pizza-salgada_pizza-tropicale"),
    (lit "napolitana paulistana", lit "pizza-salgada_pizza-napolitana-paulistana"),
    (lit "cerrado brasileiro", lit "pizza-salgada_pizza-cerrado-brasileiro"),
    (lit "caprese tropical", lit "pizza-salgada_pizza-caprese-tropical"),
    (lit "frutos do mar à paulista", lit "pizza-salgada_pizza-frutos-do-mar-a-paulista"),
    (lit "frutos do mar", lit "pizza-salgada_pizza-frutos-do-mar-a-paulista"),
    (lit "dolce banana", lit "pizza-doce_pizza-dolce-banana"),
    (lit "banana", lit "pizza-doce_pizza-dolce-banana") ]

/-- `detectImageRequest(message)` (`src/index.js:724-825`): `none` models
the `null` return.  The unused `multipleRequest` flag of the source is
omitted; the fall-through order (cardápio, half-and-half, plain mention
scan) is preserved. -/
def detectImageRequest (message0 : Str) : Option (List Str) :=
  let message := lowerStr message0
  let hasImageRequest :=
    strContains message (lit "imagem") || strContains message (lit "foto") ||
    strContains message (lit "mostra") || strContains message (lit "mostrar") ||
    strContains message (lit "ver") || strContains message (lit "veja") ||
    strContains message (lit "como é")
  if !hasImageRequest then none
  else if strContains message (lit "cardápio") || strContains message (lit "cardapio") ||
          strContains message (lit "menu") ||
          (strContains message (lit "opções") && strContains message (lit "pizza")) then
    some [lit "cardapio"]
  else
    let meio :=
      strContains message (lit "meio a meio") || strContains message (lit "metade") ||
      strContains message (lit "meio") ||
      (strContains message (lit "meia") && strContains message (lit "meia"))
    let mencionados := pizzaTypes.filter (fun p => strContains message p.1)
    match meio, mencionados with
    | true, s1 :: s2 :: _ => some [s1.2 ++ lit "+" ++ s2.2]
    | _, _ =>
      let foundIds := (pizzaTypes.filter (fun p => strContains message p.1)).map Prod.snd
      if foundIds.isEmpty then none else some foundIds

/-! ## `processTaggedResponse` (`src/index.js:1076-1677`) -/

/-- Truthiness of an optional image value (`if (imageUrl)`): an absent
value or an empty URL string is falsy; a composite (a non-empty base64
data URL) is truthy. -/
def truthyImg : Option ImageVal → Bool
  | none => false
  | some (ImageVal.url u) => !u.isEmpty
  | some (ImageVal.composite _ _) => true

/-- JavaScript chained `a || b || …` over possibly-absent strings. -/
def firstTruthy : List (Option Str) → Option Str
  | [] => none
  | o :: rest => if truthyS o then o else firstTruthy rest

/-- `nome.replaceAll('Pizza ', '')` used for half-and-half captions. -/
def stripPizza (nome : Str) : Str := replaceAll nome (lit "Pizza ") []

/-- Half-and-half caption base (`src/index.js:1193`). -/
def mkMeioCaption (sabor1 sabor2 : CardItem) : Str :=
  lit "Pizza meio " ++ stripPizza sabor1.nome ++ lit " e meio " ++ stripPizza sabor2.nome

/-- The outgoing voice handling (`src/index.js:1094-1128`): in states 6
and 7 a voice block is demoted to text when no text block exists;
otherwise audio is synthesized for the first voice block. -/
def voiceStep (env : Env) (botResponse : Str) (conversa : Conversa)
    (resp : ResponseObj) : ResponseObj :=
  match extractBlock voiceOpenTok botResponse with
  | none => resp
  | some voicePayload =>
    let voiceText := trimStr voicePayload
    if conversa.state = 6 || conversa.state = 7 then
      match extractBlock textOpenTok botResponse with
      | some _ => resp
      | none => { resp with text := some (textOpenTok ++ voiceText ++ endTok) }
    else
      match env.genAudio voiceText with
      | some audioUrl => { resp with audio := some audioUrl }
      | none => resp

/-- Resolution of the first `[IMAGE_FORMAT]` identifier to an image and
caption (`src/index.js:1149-1250`): menu image, half-and-half composite
(with its fallback ladder), or single-item lookup ladder. -/
def resolveFirstImage (env : Env) (botConfig : Option BotConfig) (imageId : Str) :
    Option ImageVal × Option Str :=
  if imageId = lit "cardapio" || imageId = lit "menu" then
    match botConfig with
    | some bc =>
      if truthyS bc.menuImage then
        (some (ImageVal.url (jsShow bc.menuImage)),
         some (if truthyS bc.menuImageCaption then jsShow bc.menuImageCaption
               else lit "Cardápio"))
      else (none, none)
    | none => (none, none)
  else if strContains imageId (lit "+") then
    match splitAll imageId (lit "+") with
    | [sabor1Id, sabor2Id] =>
      match env.findItem sabor1Id, env.findItem sabor2Id with
      | some sabor1, some sabor2 =>
        let leftImage := sabor1.imagemEsquerda
        let rightImage := sabor2.imagemDireita
        if truthyS rightImage && truthyS leftImage then
          if env.overlayThrows then
            -- the `mergeError` catch (`src/index.js:1195-1200`)
            ((firstTruthy [leftImage, rightImage]).map ImageVal.url,
             some (mkMeioCaption sabor1 sabor2 ++ lit " (visualização parcial)"))
          else
            (some (overlayImages env (jsShow rightImage) (jsShow leftImage)),
             some (mkMeioCaption sabor1 sabor2))
        else if truthyS sabor1.imagemGeral && truthyS sabor2.imagemGeral then
          (sabor1.imagemGeral.map ImageVal.url,
           some (mkMeioCaption sabor1 sabor2 ++ lit " (visualização aproximada)"))
        else
          ((firstTruthy [sabor1.imagemGeral, sabor1.imagemEsquerda,
                         sabor2.imagemGeral, sabor2.imagemDireita]).map ImageVal.url,
           some (lit "Pizza meio " ++ stripPizza sabor1.nome ++ lit " e meio " ++
                 sabor2.nome))
      | _, _ => (none, none)
    | _ => (none, none)
  else
    let item0 := env.findItem imageId
    let item1 :=
      match item0 with
      | some it => some it
      | none =>
        match splitSegment1 imageId (lit "_pizza-") with
        | some nomePizza =>
          if nomePizza.isEmpty then none else env.findItemByName nomePizza
        | none => none
    let item :=
      match item1 with
      | some it => some it
      | none => env.findItemBroad imageId
    match item with
    | some it =>
      (it.imagemGeral.map ImageVal.url,
       some (lit "*" ++ it.nome ++ lit "*: " ++ it.descricao.getD []))
    | none => (none, none)

/-- The state-appropriate synthesized follow-up text when an image is
sent without any text block (`src/index.js:1273-1299`). -/
def mkFollowUpText (state : Nat) (isMenuImage isPizzaDoce : Bool) (caption : Str) : Str :=
  if isMenuImage then
    lit "Aqui está nosso cardápio. Qual sabor de pizza você gostaria de pedir?"
  else match state with
  | 0 => lit "Aqui está a imagem da " ++ caption ++
         lit ". Gostaria de pedir esta pizza? Ou prefere ver outras opções?"
  | 1 =>
    if isPizzaDoce then lit "Esta é a nossa " ++ caption ++ lit ". Gostaria de pedir agora?"
    else lit "Esta é a nossa " ++ caption ++
         lit ". Você gostaria dela inteira ou meio a meio com outro sabor?"
  | 2 => lit "Aqui está a " ++ caption ++
         lit ". Gostaria de pedir mais alguma pizza ou podemos prosseguir com o pedido?"
  | 3 => lit "Esta é a deliciosa " ++ caption ++
         lit ". Gostaria de adicionar alguma bebida ao seu pedido?"
  | _ => lit "Esta é a nossa " ++ caption ++ lit ". O que você gostaria de fazer a seguir?"

/-- The question appended to an existing text that lacks a trailing
question mark in states 0–3 (`src/index.js:1305-1332`). -/
def mkQuestionToAdd (state : Nat) (isMenuImage isPizzaDoce : Bool) : Str :=
  if isMenuImage then lit " Qual sabor você gostaria de experimentar?"
  else match state with
  | 0 => lit " Gostaria de pedir agora?"
  | 1 =>
    if isPizzaDoce then lit " Gostaria de pedir agora?"
    else lit " Você prefere ela inteira ou meio a meio com outro sabor?"
  | 2 => lit " Deseja mais alguma pizza ou podemos prosseguir?"
  | 3 => lit " Gostaria de adicionar alguma bebida ao pedido?"
  | _ => []

/-- Lookup ladder for an additional (second onwards) image id
(`src/index.js:1366-1392`). -/
def resolveAdditionalImage (env : Env) (aid : Str) : Option CardItem :=
  let item0 := env.findItem aid
  let item1 :=
    match item0 with
    | some it => some it
    | none =>
      if strContains aid (lit "pizza-") then
        let p1 := splitSegment1 aid (lit "_pizza-")
        let p2 := splitSegment1 aid (lit "-pizza-")
        let pizzaName := if truthyS p1 then p1 else p2
        if truthyS pizzaName then env.findItemByName (jsShow pizzaName) else none
      else none
  match item1 with
  | some it => some it
  | none => env.findItemBroad aid

/-- The image-block handling of `processTaggedResponse`
(`src/index.js:1130-1414`): resolve the first image, attach it with its
caption, synthesize or extend the accompanying text, then collect the
remaining image ids into `allImages`. -/
def imageStep (env : Env) (botResponse : Str) (conversa : Conversa)
    (botConfig : Option BotConfig) (resp : ResponseObj) : ResponseObj :=
  match extractAllBlocks imageOpenTok botResponse with
  | [] => resp
  | imageId0 :: restIds =>
    let imageId := trimStr imageId0
    let (imageUrlOpt, imageCaption) := resolveFirstImage env botConfig imageId
    let resp :=
      if truthyImg imageUrlOpt then
        let u := imageUrlOpt.getD (ImageVal.url [])
        let resp := { resp with
          image := some u,
          imageCaption := if truthyS imageCaption then imageCaption else resp.imageCaption,
          allImages := some [⟨imageId, u, imageCaption⟩] }
        let isMenuImage :=
          imageId = lit "cardapio" || imageId = lit "menu" ||
          (truthyS imageCaption &&
            (strContains (lowerStr (jsShow imageCaption)) (lit "cardápio") ||
             strContains (lowerStr (jsShow imageCaption)) (lit "cardapio")))
        let isPizzaDoce :=
          strContains imageId (lit "pizza-doce") ||
          (truthyS imageCaption && strContains (lowerStr (jsShow imageCaption)) (lit "doce"))
        let textMatch := extractBlock textOpenTok botResponse
        if textMatch = none || !truthyS resp.text || (trimStr (jsShow resp.text)).isEmpty then
          { resp with
            text := some (mkFollowUpText conversa.state isMenuImage isPizzaDoce (jsShow imageCaption)) }
        else if conversa.state ≤ 3 then
          let t := jsShow resp.text
          if endsWithQuestion (trimStr t) then resp
          else { resp with text := some (trimStr t ++ mkQuestionToAdd conversa.state isMenuImage isPizzaDoce) }
        else resp
      else if truthyS resp.text then resp
      else { resp with text := some (lit "Desculpe, não encontrei imagem para este item no nosso cardápio.") }
    if restIds.isEmpty then resp
    else
      let base := resp.allImages.getD []
      let extra := restIds.filterMap (fun aid =>
        match resolveAdditionalImage env aid with
        | some it =>
          if truthyS it.imagemGeral then
            some (⟨aid, ImageVal.url (jsShow it.imagemGeral),
                   some (lit "*" ++ it.nome ++ lit "*: " ++ it.descricao.getD [])⟩ : ImgEntry)
          else none
        | none => none)
      { resp with allImages := some (base ++ extra) }

/-- Outcome of `processTaggedResponse`: the API response object, the
(saved) conversation, and the mutated stores. -/
structure PTOut where
  resp : ResponseObj
  conversa : Conversa
  world : World
deriving DecidableEq, Repr

/-- Server-side total: `Σ parseFloat(preco) × (quantidade || 1)`
(`src/index.js:1507-1512`, `1594-1603` and `2421-2427`), in centavos. -/
def sumPedido (items : List PedidoItem) : Int :=
  items.foldl (fun acc it => acc + it.preco * (jsQty it.quantidade : Int)) 0

/-- The `[TEXT_FORMAT]` order summary template (`src/index.js:1514-1525`,
after its `.trim()`). -/
def resumoTemplate (item0 : PedidoItem) (pd : PedidoData) (valorTotal : Int) : Str :=
  textOpenTok ++
  lit "Vamos conferir seu pedido:\n        \n        *Pizza " ++ item0.nome ++
  lit "* - R$ " ++ toFixed2 item0.preco ++
  lit "\n        \n        *Endereço de entrega:* " ++ jsShow pd.endereco ++
  lit "\n        *Forma de pagamento:* " ++ jsShow pd.pagamento ++
  lit "\n        \n        *Total:* R$ " ++ toFixed2 valorTotal ++
  lit "\n        \n        Está tudo correto? Responda SIM para confirmar ou me diga o que gostaria de modificar." ++
  endTok

/-- The `[JSON_FORMAT]` handling (`src/index.js:1416-1540`): parse the
payload, stage a valid one on the conversation (advancing to state 6),
or — when the address has no digit — force state 4 and return the
house-number request immediately (`Sum.inl` models the early
`return`). -/
def jsonStep (env : Env) (botResponse : Str) (conversa : Conversa) (world : World)
    (resp : ResponseObj) : Sum PTOut (ResponseObj × Conversa × World) :=
  match extractBlock jsonOpenTok botResponse with
  | none => Sum.inr (resp, conversa, world)
  | some jstr =>
    let pedidoData : Option PedidoData :=
      match env.parseJson jstr with
      | none => none
      | some j =>
        match j.pedido with
        | some p => some p
        | none =>
          if j.items.isSome && truthyS j.endereco && truthyS j.pagamento then some j.flat
          else none
    match pedidoData with
    | none => Sum.inr (resp, conversa, world)
    | some pd =>
      if pd.items.isSome && truthyS pd.endereco && truthyS pd.pagamento then
        let world := if !conversa.telefone.isEmpty then world.setTemp conversa.telefone pd else world
        if !hasDigit (jsShow pd.endereco) then
          Sum.inl ⟨{ success := true, state := some 4,
                     text := some (lit "Preciso do número do endereço antes de confirmar. Por favor, informe o número completo.") },
                   { conversa with state := 4 }, world⟩
        else
          let conversa := { conversa with
            pedidoData := some pd,
            state := if conversa.state < 6 then 6 else conversa.state }
          let world := if !conversa.telefone.isEmpty then world.setTemp conversa.telefone pd else world
          match pd.items with
          | some (item0 :: _) =>
            let valorTotal := sumPedido (pd.items.getD [])
            Sum.inr ({ resp with text := some (resumoTemplate item0 pd valorTotal) },
                     conversa, world)
          | _ =>
            -- `pedidoData.items[0].nome` throws on an empty items array;
            -- the catch at src/index.js:1530-1535 swaps in an apology,
            -- keeping the staging mutations already performed.
            Sum.inr ({ resp with text := some (lit "Houve um problema ao registrar seu pedido. Por favor, tente novamente ou entre em contato por telefone.") },
                     conversa, world)
      else Sum.inr (resp, conversa, world)

/-- Attach the configured confirmation image (`src/index.js:1556-1559`
and `1641-1644`). -/
def addConfirmationImage (botConfig : Option BotConfig) (resp : ResponseObj) : ResponseObj :=
  match botConfig with
  | some bc =>
    if truthyS bc.confirmationImage then
      { resp with
        image := some (ImageVal.url (jsShow bc.confirmationImage)),
        imageCaption := some (if truthyS bc.confirmationImageCaption
                              then jsShow bc.confirmationImageCaption
                              else lit "Pedido Confirmado") }
    else resp
  | none => resp

/-- Persist the order and mark the conversation committed
(`src/index.js:1593-1644`). -/
def commitPedido (conversa : Conversa) (botConfig : Option BotConfig) (world : World)
    (resp : ResponseObj) (pd : PedidoData) (confText : Str) :
    Sum PTOut (ResponseObj × Conversa × World) :=
  let conversa := { conversa with pedidoData := some pd }
  match pd.items with
  | none =>
    -- `savedPedidoData.items.forEach` throws on an absent array; the
    -- catch at src/index.js:1645-1648 leaves the conversation
    -- un-committed.
    Sum.inr ({ resp with text := some (lit "Houve um problema ao confirmar seu pedido. Por favor, tente novamente ou entre em contato por telefone.") },
             conversa, world)
  | some items =>
    let valorTotal := sumPedido items
    let novoPedido : Pedido :=
      { telefone := conversa.telefone,
        itens := items.map (fun it =>
          { nome := it.nome, quantidade := some (jsQty it.quantidade), preco := it.preco }),
        valorTotal := valorTotal,
        endereco := jsShow pd.endereco,
        formaPagamento := jsShow pd.pagamento,
        status := lit "Confirmado" }
    let pid := world.pedidos.length
    let world := { world with pedidos := world.pedidos ++ [novoPedido] }
    let conversa := { conversa with pedidoId := some pid, state := 7 }
    let resp := addConfirmationImage botConfig { resp with text := some confText }
    Sum.inr (resp, conversa, world)

/-- The `[CONFIRMATION_FORMAT]` handling (`src/index.js:1542-1656`):
idempotency guard on `pedidoId`, address-digit re-validation with
recovery from `addressData`, then order persistence.  `Sum.inl` models
the early `return`s. -/
def confirmationStep (botResponse : Str) (conversa : Conversa)
    (botConfig : Option BotConfig) (world : World) (resp : ResponseObj) :
    Sum PTOut (ResponseObj × Conversa × World) :=
  match extractBlock confOpenTok botResponse with
  | none => Sum.inr (resp, conversa, world)
  | some confText =>
    match conversa.pedidoId with
    | some _ =>
      -- idempotency guard: the order was already persisted
      Sum.inl ⟨addConfirmationImage botConfig { resp with text := some confText },
               conversa, world⟩
    | none =>
      match conversa.pedidoData with
      | none =>
        Sum.inr ({ resp with text := some (lit "Não consegui encontrar os detalhes do seu pedido para confirmar. Por favor, tente fazer o pedido novamente.") },
                 conversa, world)
      | some savedPedidoData =>
        if truthyS savedPedidoData.endereco && hasDigit (jsShow savedPedidoData.endereco) then
          commitPedido conversa botConfig world resp savedPedidoData confText
        else
          match conversa.addressData with
          | some ad =>
            if truthyS ad.formattedAddress && hasDigit (jsShow ad.formattedAddress) then
              commitPedido conversa botConfig world resp
                { savedPedidoData with endereco := ad.formattedAddress } confText
            else
              Sum.inl ⟨{ resp with text := some (lit "Desculpe, precisamos de um endereço completo com número para confirmar seu pedido. Por favor, informe o número do seu endereço.") },
                       { conversa with state := 4 }, world⟩
          | none =>
            Sum.inl ⟨{ resp with text := some (lit "Desculpe, precisamos de um endereço completo com número para confirmar seu pedido. Por favor, informe o número do seu endereço.") },
                     { conversa with state := 4 }, world⟩

/-- The final no-content repair (`src/index.js:1658-1671`): an untagged
response is passed through verbatim as text. -/
def finalStep (botResponse : Str) (resp : ResponseObj) : ResponseObj :=
  if !truthyS resp.text && resp.image = none && resp.audio = none then
    if !strContains botResponse textOpenTok && !strContains botResponse voiceOpenTok &&
       !strContains botResponse imageOpenTok && !strContains botResponse jsonOpenTok then
      { resp with text := some botResponse }
    else
      { resp with text := some (lit "Desculpe, ocorreu um erro ao processar sua mensagem. Poderia tentar novamente?") }
  else resp

/-- `processTaggedResponse(botResponse, userMessage, conversa, botConfig)`
(`src/index.js:1076-1677`). -/
def processTaggedResponse (env : Env) (botResponse _userMessage : Str)
    (conversa : Conversa) (botConfig : Option BotConfig) (world : World) : PTOut :=
  let resp : ResponseObj :=
    { success := true, state := some conversa.state, text := some botResponse }
  let resp := voiceStep env botResponse conversa resp
  let resp := imageStep env botResponse conversa botConfig resp
  match jsonStep env botResponse conversa world resp with
  | Sum.inl out => out
  | Sum.inr (resp, conversa, world) =>
    match confirmationStep botResponse conversa botConfig world resp with
    | Sum.inl out => out
    | Sum.inr (resp, conversa, world) => ⟨finalStep botResponse resp, conversa, world⟩

/-! ## `processMessageInternally` (`src/index.js:2165-2902`) and the turn
plumbing around it -/

/-- The reset vocabulary (`src/index.js:1799-1801`, `1918-1920`,
`2180-2182`): an exact, case-insensitive match of one of three
commands. -/
def isResetMsg (message : Str) : Bool :=
  lowerStr message = lit "reiniciar" ||
  lowerStr message = lit "começar de novo" ||
  lowerStr message = lit "novo pedido"

/-- Outcome of one turn: the response, the conversation document, the
stores, whether the language model was invoked, and whether the
state-7-without-`pedidoId` inconsistency alert was logged
(`src/index.js:2863-2865`). -/
structure TurnOut where
  resp : ResponseObj
  conversa : Conversa
  world : World
  usedModel : Bool := false
  alert7 : Bool := false
deriving DecidableEq, Repr

/-- Search the conversation history (newest first) for an address
number (`src/index.js:2382-2404`): the patterns `/número\s+(\d+)/i`,
`/,\s*(\d+)/`, `/n[º°]\s*(\d+)/i`, then an isolated-number message —
the latter gated on `conversa.state === 4`. -/
def findNumeroInMsgs (conversa : Conversa) : Option Str :=
  go conversa.mensagens.reverse
where
  go : List Msg → Option Str
  | [] => none
  | m :: rest =>
    if m.tipo = Role.user then
      let lowered := lowerStr m.conteudo
      match ((findKwNumber (lit "número") lowered).orElse
              (fun _ => findCommaNumber m.conteudo)).orElse
              (fun _ => findNumAbbrev lowered) with
      | some n => some n
      | none =>
        if digitsOnly m.conteudo && conversa.state = 4 then
          some ((m.conteudo.dropWhile isWs).takeWhile isDig)
        else go rest
    else go rest

/-- The state-4 digits-only override (`src/index.js:2218-2282`): splice
the number into the stored street, advance to state 5, and answer with
the canned payment-options reply without any model call. -/
def state4NumberSplice (conversa : Conversa) (message : Str) :
    Option (ResponseObj × Conversa) :=
  if digitsOnly message then
    match conversa.addressData with
    | none => none
    | some ad =>
      match ad.components with
      | none => none
      | some comp =>
        if truthyS comp.street then
          let street := jsShow comp.street
          let number := trimStr message
          let formattedAddress :=
            if truthyS ad.formattedAddress then
              replaceFirst (jsShow ad.formattedAddress) street (street ++ lit ", " ++ number)
            else street ++ lit ", " ++ number
          let conversa := { conversa with
            addressData := some { ad with formattedAddress := some formattedAddress } }
          let conversa :=
            match conversa.pedidoData with
            | some pd =>
              { conversa with pedidoData := some { pd with endereco := some formattedAddress } }
            | none => conversa
          let conversa := { conversa with state := 5 }
          let confirmationMessage :=
            lit "Perfeito! Endereço registrado: " ++ formattedAddress ++
            lit ". Qual será a forma de pagamento? Temos as opções: Dinheiro, Cartão de crédito, Cartão de débito, PIX ou VR."
          let botText := textOpenTok ++ confirmationMessage ++ endTok
          let conversa := { conversa with mensagens := conversa.mensagens ++ [⟨Role.bot, botText⟩] }
          some ({ success := true, state := some 5, text := some botText }, conversa)
        else none
  else none

/-- The state-5 payment interceptions (`src/index.js:2285-2347`).  The
first-message test filters the history with a predicate that checks
`conversa.state === 5` — constant inside this branch — so it counts
every user message of the whole conversation; this is kept verbatim. -/
def state5Intercept (conversa : Conversa) (message : Str) :
    Option (ResponseObj × Conversa) :=
  if message = lit "5" then none
  else
    let mensagensNoEstado5 :=
      conversa.mensagens.filter (fun msg => msg.tipo = Role.user && conversa.state = 5)
    if mensagensNoEstado5.length ≤ 1 then
      let paymentMsg :=
        lit "Qual será a forma de pagamento? Temos as opções: Dinheiro, Cartão de crédito, Cartão de débito, PIX ou VR."
      let botResponse := textOpenTok ++ paymentMsg ++ endTok
      some ({ success := true, text := some botResponse },
            { conversa with mensagens := conversa.mensagens ++ [⟨Role.bot, botResponse⟩] })
    else
      let temCartao :=
        strContains (lowerStr message) (lit "cartão") ||
        strContains (lowerStr message) (lit "cartao")
      let temCredito :=
        strContains (lowerStr message) (lit "credito") ||
        strContains (lowerStr message) (lit "crédito")
      let temDebito :=
        strContains (lowerStr message) (lit "debito") ||
        strContains (lowerStr message) (lit "débito")
      if temCartao && !temCredito && !temDebito then
        let cartaoMsg := lit "Por favor, especifique se deseja pagar com cartão de crédito ou débito."
        let botText := textOpenTok ++ cartaoMsg ++ endTok
        some ({ success := true, text := some botText },
              { conversa with mensagens := conversa.mensagens ++ [⟨Role.bot, botText⟩] })
      else none

/-- The "🎉 PEDIDO CONFIRMADO 🎉" template of the direct state-6 commit
(`src/index.js:2448-2459`, after its `.trim()`). -/
def confirmacaoTemplate (item0 : PedidoItem) (enderecoCompleto formaPagamento : Str)
    (valorTotal : Int) : Str :=
  textOpenTok ++
  lit "🎉 *PEDIDO CONFIRMADO* 🎉\n\n*Pizza " ++ item0.nome ++
  lit "* - R$ " ++ toFixed2 item0.preco ++
  lit "\n\n*Endereço de entrega:* " ++ enderecoCompleto ++
  lit "\n*Forma de pagamento:* " ++ formaPagamento ++
  lit "\n\n*Total:* R$ " ++ toFixed2 valorTotal ++
  lit "\n\nSeu pedido será entregue em aproximadamente 50 minutos. Obrigado pela preferência! 🍕" ++
  endTok

/-- The affirmative test guarding the direct state-6 commit
(`src/index.js:2350-2352`). -/
def affirmative6 (message : Str) : Bool :=
  strContains (lowerStr message) (lit "sim") ||
  strContains (lowerStr message) (lit "correto") ||
  strContains (lowerStr message) (lit "ok")

/-- The direct state-6 commit path (`src/index.js:2349-2497`), reached
before any model call when the user message is affirmative: persists the
staged payload (recovering an address number from `addressData` plus the
history when the staged address has no digit), sets state 7, starts a
fresh `Conversa` row, and renders the canned confirmation. -/
def direct6Commit (env : Env) (conversa : Conversa) (world : World)
    (message : Str) : TurnOut :=
  match conversa.pedidoData with
  | none =>
    { resp := { success := true, state := some 0,
                text := some (textOpenTok ++ lit "Desculpe, houve um problema com seu pedido. Poderia começar novamente?" ++ endTok) },
      conversa := conversa, world := world }
  | some pedidoData =>
    let enderecoCompleto0 := jsShow pedidoData.endereco
    let enderecoCompleto :=
      match conversa.addressData with
      | some ad =>
        match ad.components with
        | some comp =>
          if hasDigit enderecoCompleto0 then enderecoCompleto0
          else
            match findNumeroInMsgs conversa with
            | some numeroEndereco =>
              jsShow comp.street ++ lit ", " ++ numeroEndereco ++ lit ", " ++
              jsShow comp.neighborhood ++ lit ", " ++ jsShow comp.city ++
              lit " - " ++ jsShow comp.state ++ lit ", " ++ jsShow comp.cep
            | none => enderecoCompleto0
        | none => enderecoCompleto0
      | none => enderecoCompleto0
    match pedidoData.items with
    | none =>
      -- `pedidoData.items.forEach` throws before anything is persisted;
      -- the catch at src/index.js:2489-2496 keeps state 6.
      { resp := { success := true, state := some 6,
                  text := some (textOpenTok ++ lit "Desculpe, ocorreu um erro ao finalizar seu pedido. Por favor, tente novamente." ++ endTok) },
        conversa := conversa, world := world }
    | some items =>
      let valorTotal := sumPedido items
      let novoPedido : Pedido :=
        { telefone := conversa.telefone, itens := items, valorTotal := valorTotal,
          endereco := enderecoCompleto, formaPagamento := jsShow pedidoData.pagamento,
          status := lit "Confirmado" }
      let pid := world.pedidos.length
      let world := { world with pedidos := world.pedidos ++ [novoPedido] }
      let conversa := { conversa with pedidoId := some pid, state := 7 }
      match items with
      | [] =>
        -- `pedidoData.items[0].nome` throws while building the template,
        -- after the order was already saved (src/index.js:2440 precedes
        -- 2451); the catch at 2489 returns the apology.
        { resp := { success := true, state := some 6,
                    text := some (textOpenTok ++ lit "Desculpe, ocorreu um erro ao finalizar seu pedido. Por favor, tente novamente." ++ endTok) },
          conversa := conversa, world := world }
      | item0 :: _ =>
        let confirmacao :=
          confirmacaoTemplate item0 enderecoCompleto (jsShow pedidoData.pagamento) valorTotal
        let conversa := { conversa with mensagens := conversa.mensagens ++ [⟨Role.bot, confirmacao⟩] }
        let novaConversa : Conversa := { telefone := conversa.telefone }
        let world := { world with conversas := world.conversas ++ [novaConversa] }
        let pt := processTaggedResponse env confirmacao message conversa none world
        { resp := pt.resp, conversa := pt.conversa, world := pt.world }

/-- The pre-model image-request interception (`src/index.js:2499-2539`):
detected image ids are rendered directly through the tagged-response
processor. -/
def imageRequestIntercept (env : Env) (conversa : Conversa) (world : World)
    (message : Str) : Option TurnOut :=
  match detectImageRequest message with
  | none => none
  | some [] => none
  | some (id0 :: restIds) =>
    let responseText :=
      if id0 = lit "cardapio" then
        textOpenTok ++ lit "Aqui está nosso cardápio:" ++ endTok ++ lit "\n" ++
        imageOpenTok ++ lit "cardapio" ++ endTok
      else if !restIds.isEmpty then
        (textOpenTok ++ lit "Aqui estão as imagens das pizzas solicitadas:" ++ endTok) ++
        ((id0 :: restIds).foldl (fun acc i => acc ++ lit "\n" ++ imageOpenTok ++ i ++ endTok) []) ++
        (lit "\n" ++ textOpenTok ++ lit "Gostaria de pedir alguma destas pizzas?" ++ endTok)
      else
        textOpenTok ++ lit "Aqui está a imagem da pizza solicitada:" ++ endTok ++ lit "\n" ++
        imageOpenTok ++ id0 ++ endTok ++ lit "\n" ++
        textOpenTok ++ lit "Gostaria de pedir esta pizza?" ++ endTok
    let conversa := { conversa with mensagens := conversa.mensagens ++ [⟨Role.bot, responseText⟩] }
    let pt := processTaggedResponse env responseText message conversa env.botConfig world
    some { resp := pt.resp, conversa := pt.conversa, world := pt.world }

/-- `extractPedidoData(text, conversa)` (`src/index.js:1680-1717`):
parse and fully validate a `[JSON_FORMAT]` payload, including the
address-digit requirement. -/
def extractPedidoData (env : Env) (text : Str) : Option PedidoData :=
  match extractBlock jsonOpenTok text with
  | none => none
  | some jstr =>
    match env.parseJson jstr with
    | none => none
    | some j =>
      let pedidoData : Option PedidoData :=
        match j.pedido with
        | some p => some p
        | none =>
          if j.items.isSome && truthyS j.endereco && truthyS j.pagamento then some j.flat
          else none
      match pedidoData with
      | none => none
      | some pd =>
        if pd.items.isSome && truthyS pd.endereco && truthyS pd.pagamento then
          if hasDigit (jsShow pd.endereco) then some pd else none
        else none

/-- The unconditional post-model JSON staging (`src/index.js:2689-2710`):
any parseable `[JSON_FORMAT]` payload is stored on the conversation —
with no shape or digit validation — and the state is forced to 6. -/
def stageJsonBlock (env : Env) (botResponse : Str) (conversa : Conversa)
    (world : World) : Conversa × World :=
  if strContains botResponse jsonOpenTok then
    match extractBlock jsonOpenTok botResponse with
    | some jstr =>
      if jstr.isEmpty then (conversa, world)
      else
        match env.parseJson (trimStr jstr) with
        | some j =>
          if !conversa.telefone.isEmpty then
            let pd := (j.pedido).getD j.flat
            ({ conversa with pedidoData := some pd, state := 6 },
             world.setTemp conversa.telefone pd)
          else (conversa, world)
        | none => (conversa, world)
    | none => (conversa, world)
  else (conversa, world)

/-- The required-tag test of the repair policy (`src/index.js:2798-2802`
and `2781-2785`): no recognized opening tag together with a closing
tag. -/
def lacksTagFormat (s : Str) : Bool :=
  !(strContains s textOpenTok && strContains s endTok) &&
  !(strContains s voiceOpenTok && strContains s endTok) &&
  !(strContains s imageOpenTok && strContains s endTok) &&
  !(strContains s jsonOpenTok && strContains s endTok)

/-- The `[REQUEST_*]` marker strings stripped at
`src/index.js:2722-2726`. -/
def requestToks : List Str :=
  [lit "[REQUEST_HISTORY]", lit "[/REQUEST_HISTORY]",
   lit "[REQUEST_MENU]", lit "[/REQUEST_MENU]",
   lit "[REQUEST_PAYMENT]", lit "[/REQUEST_PAYMENT]"]

/-- The enrichment follow-up (`src/index.js:2712-2795`): when the model
asked for extra information, strip the markers, and — if cached context
is available — replace the reply by the enriched completion, repairing
an untagged enriched reply. -/
def enrichStep (env : Env) (botResponse : Str) : Str :=
  let needs := requestToks.any (fun t => strContains botResponse t)
  if needs then
    let stripped := trimStr (requestToks.foldl (fun s t => replaceFirst s t []) botResponse)
    if env.extraInfo then
      match env.enrich stripped with
      | some enriched =>
        if lacksTagFormat enriched then textOpenTok ++ enriched ++ endTok else enriched
      | none => stripped
    else stripped
  else botResponse

/-- The model phase of a turn (`src/index.js:2541-2892`): model call
(with failure fallback), the two staging passes, enrichment, repair,
history append, state advance with the state-7 protection, and the final
tagged-response processing. -/
def modelPhase (env : Env) (message : Str) (conversa : Conversa) (world : World) : TurnOut :=
  let botConfig := env.botConfig
  let botResponse0 := env.model.getD
    (textOpenTok ++ lit "Desculpe, estou enfrentando alguns problemas técnicos no momento. Poderia tentar novamente em instantes?" ++ endTok)
  let conversa :=
    match env.model with
    | some r =>
      match extractPedidoData env r with
      | some pd =>
        { conversa with pedidoData := some pd, lastJsonData := extractBlock jsonOpenTok r }
      | none => conversa
    | none => conversa
  let (conversa, world) := stageJsonBlock env botResponse0 conversa world
  let botResponse1 := enrichStep env botResponse0
  let botResponse :=
    if lacksTagFormat botResponse1 then textOpenTok ++ botResponse1 ++ endTok
    else botResponse1
  let conversa := { conversa with mensagens := conversa.mensagens ++ [⟨Role.bot, botResponse⟩] }
  let shouldAdvanceState := checkIfShouldAdvanceState botResponse message conversa.state conversa
  let s0 := conversa.state
  let conversa :=
    if shouldAdvanceState && s0 < 7 then { conversa with state := s0 + 1 } else conversa
  let alert7 := (!(shouldAdvanceState && s0 < 7)) && s0 = 7 && conversa.pedidoId.isNone
  let pt := processTaggedResponse env botResponse message conversa botConfig world
  { resp := pt.resp, conversa := pt.conversa, world := pt.world,
    usedModel := true, alert7 := alert7 }

/-- `processMessageInternally(userPhone, message, isAudio, messageType,
conversa)` (`src/index.js:2165-2902`), for text turns. -/
def processMessageInternally (env : Env) (userPhone message : Str) (isAudio : Bool)
    (conversa : Conversa) (world : World) : TurnOut :=
  if userPhone.isEmpty then
    -- the `throw` at src/index.js:2172 reaches the global catch at 2893
    { resp := { success := false,
                text := some (textOpenTok ++ lit "Desculpe, ocorreu um erro ao processar sua mensagem." ++ endTok) },
      conversa := conversa, world := world }
  else if isResetMsg message then
    { resp := { success := true, text := some (lit "Seu pedido foi reiniciado. Como posso ajudar?") },
      conversa := conversa, world := world }
  else
    let conversa :=
      if cepDetect message then
        match env.cepLookup message with
        | some ad => { conversa with addressData := some ad }
        | none => conversa
      else conversa
    let userContent := if isAudio then lit "[Áudio]: " ++ message else message
    let conversa := { conversa with mensagens := conversa.mensagens ++ [⟨Role.user, userContent⟩] }
    let intercepted : Option TurnOut :=
      (if conversa.state = 4 then
        (state4NumberSplice conversa message).map
          (fun p => { resp := p.1, conversa := p.2, world := world })
       else none).orElse fun _ =>
      (if conversa.state = 5 then
        (state5Intercept conversa message).map
          (fun p => { resp := p.1, conversa := p.2, world := world })
       else none).orElse fun _ =>
      (if conversa.state = 6 && affirmative6 message then
        some (direct6Commit env conversa world message)
       else none).orElse fun _ =>
      imageRequestIntercept env conversa world message
    match intercepted with
    | some out => out
    | none => modelPhase env message conversa world

/-- `getOrCreateConversation(userPhone, message)`
(`src/index.js:1915-1975`): reset requests, terminal (state-7) and stale
(older than three hours, the `stale` flag) conversations all start a
fresh row at state 0.  Returns the conversation and whether a new row
was created. -/
def getOrCreateConversation (userPhone message : Str) (existing : Option Conversa)
    (stale : Bool) : Conversa × Bool :=
  if isResetMsg message then ({ telefone := userPhone }, true)
  else
    match existing with
    | some conversa =>
      if conversa.state = 7 || stale then ({ telefone := userPhone }, true)
      else (conversa, false)
    | none => ({ telefone := userPhone }, true)

/-! ## Concrete fixtures for counterexamples and witnesses -/

/-- An environment in which every external lookup fails; individual
fixtures override the oracles they need. -/
def baseEnv : Env :=
  { findItem := fun _ => none, findItemByName := fun _ => none,
    findItemBroad := fun _ => none, genAudio := fun _ => none,
    parseJson := fun _ => none, cepLookup := fun _ => none,
    enrich := fun _ => none }

/-- A staged payload with a digit-bearing address. -/
def pdOk : PedidoData :=
  { items := some [{ nome := lit "Pizza Amazonas", quantidade := some 1, preco := (4500 : Int) }],
    endereco := some (lit "Rua Augusta, 100"), pagamento := some (lit "pix") }

/-- A staged payload whose address contains no digit. -/
def pdNoDigit : PedidoData :=
  { items := some [{ nome := lit "Pizza Amazonas", preco := (4500 : Int) }],
    endereco := some (lit "Rua Sem Numero"), pagamento := some (lit "pix") }

/-- A conversation in state 6 with a valid staged payload and no
committed order yet. -/
def convC1 : Conversa :=
  { telefone := lit "551", state := 6, pedidoData := some pdOk }

/-- A bot configuration carrying a confirmation image. -/
def bcConf : BotConfig := { confirmationImage := some (lit "conf-img") }

/-- A model reply consisting of a single confirmation block. -/
def brConf : Str := lit "[CONFIRMATION_FORMAT]Ok![/END]"

/-- First commit invocation of the C1 scenario. -/
def c1run1 : PTOut := processTaggedResponse baseEnv brConf (lit "sim") convC1 (some bcConf) {}

/-- Second (replayed) commit invocation of the C1 scenario. -/
def c1run2 : PTOut :=
  processTaggedResponse baseEnv brConf (lit "sim") c1run1.conversa (some bcConf) c1run1.world

/-- C1 counterexample: invoking commit twice on a state-6 conversation
persists exactly one `Pedido`, and both responses succeed with the same
confirmation text and image, but they are not structurally identical:
the first echoes the pre-commit state 6 while the second echoes 7. -/
theorem C1_counterexample :
    c1run2.world.pedidos.length = 1 ∧
    c1run1.resp.state = some 6 ∧ c1run2.resp.state = some 7 ∧
    c1run1.resp ≠ c1run2.resp ∧
    c1run1.resp.text = c1run2.resp.text ∧
    c1run1.resp.image = c1run2.resp.image ∧
    c1run1.resp.success = true ∧ c1run2.resp.success = true := by
  decide

/-- A state-6 conversation staging a digit-less payload, with no
address data at all. -/
def convC2 : Conversa :=
  { telefone := lit "551", state := 6, pedidoData := some pdNoDigit }

/-- The C2 turn: an affirmative "sim" on `convC2`. -/
def c2run : TurnOut := processMessageInternally baseEnv (lit "551") (lit "sim") false convC2 {}

/-- C2 counterexample: in state 6 an affirmative reply with a staged
payload commits directly — an order is persisted and the state becomes 7
— although the language model was never invoked, so no
`[CONFIRMATION_FORMAT]` block exists in any model output, and although
the staged address contains no digit.  Commit does not require all three
claimed conditions. -/
theorem C2_counterexample :
    c2run.world.pedidos.length = 1 ∧
    c2run.conversa.state = 7 ∧
    c2run.usedModel = false ∧
    c2run.world.pedidos.map Pedido.endereco = [lit "Rua Sem Numero"] := by
  decide

/-- A state-6 conversation whose staged address lacks a digit but whose
`addressData` carries a digit-bearing formatted address. -/
def convC3 : Conversa :=
  { telefone := lit "551", state := 6, pedidoData := some pdNoDigit,
    addressData := some { formattedAddress := some (lit "Rua Augusta, 123") } }

/-- The C3 run: a confirmation block processed on `convC3`. -/
def c3run : PTOut :=
  processTaggedResponse baseEnv brConf (lit "x") convC3 none {}

/-- C3 counterexample: with state 6, a model output containing a
`[CONFIRMATION_FORMAT]` block, and a staged address lacking a digit, the
code recovers the digit-bearing `addressData.formattedAddress`, persists
the order with the recovered address and sets state 7 — not state 4 with
no order, as claimed. -/
theorem C3_counterexample :
    c3run.world.pedidos.length = 1 ∧
    c3run.conversa.state = 7 ∧
    c3run.world.pedidos.map Pedido.endereco = [lit "Rua Augusta, 123"] := by
  decide

/-- An environment whose model emits a digit-less `[JSON_FORMAT]` order
and whose `JSON.parse` oracle parses that payload. -/
def envC4 : Env :=
  { baseEnv with
    model := some (lit "[JSON_FORMAT]jsonpayload[/END]"),
    parseJson := fun s =>
      if s = lit "jsonpayload" then some { pedido := some pdNoDigit } else none }

/-- The C4 turn: a neutral, non-reset message on a state-6 conversation
while the model stages a digit-less order. -/
def c4run : TurnOut :=
  processMessageInternally envC4 (lit "551") (lit "aguarde") false
    { telefone := lit "551", state := 6 } {}

/-- C4 counterexample: a turn whose message is not a reset command
("aguarde") takes a state-6 conversation back to state 4 — the state
machine decreases without any reset (the digit-less-address recovery
edge), no fresh conversation is created, and no order exists. -/
theorem C4_counterexample :
    c4run.conversa.state = 4 ∧
    isResetMsg (lit "aguarde") = false ∧
    c4run.world.conversas = [] ∧
    c4run.world.pedidos = [] := by
  decide

/-- A conversation in state 5 with ordinary prior history (two earlier
user messages). -/
def convC6 : Conversa :=
  { telefone := lit "551", state := 5,
    mensagens := [⟨Role.user, lit "oi"⟩, ⟨Role.bot, lit "olá"⟩,
                  ⟨Role.user, lit "quero pizza"⟩, ⟨Role.bot, lit "qual?"⟩] }

/-- Environment for the C6 run: the model answers with a plain text
block. -/
def envC6 : Env := { baseEnv with model := some (lit "[TEXT_FORMAT]Claro![/END]") }

/-- The canned payment-options reply the specification expects for the
first message in state 5. -/
def paymentOptionsBlock : Str :=
  textOpenTok ++
  lit "Qual será a forma de pagamento? Temos as opções: Dinheiro, Cartão de crédito, Cartão de débito, PIX ou VR." ++
  endTok

/-- The C6 turn: the first user message after entering state 5. -/
def c6run : TurnOut :=
  processMessageInternally envC6 (lit "551") (lit "e agora") false convC6 {}

/-- C6, evaluation at the failing input: the first user message after a
conversation with history enters state 5 is **not** intercepted — the
history filter at `src/index.js:2289-2292` tests `conversa.state === 5`
(constant inside the branch) instead of a per-message property, so it
counts every user message of the conversation, the count exceeds 1, and
the language model is invoked instead of the canned payment-options
prompt the code's own comment ("a primeira mensagem do usuário neste
estado") and the specification describe. -/
theorem C6_first_state5_message_reaches_model :
    c6run.usedModel = true ∧
    c6run.resp.text = some (lit "[TEXT_FORMAT]Claro![/END]") ∧
    c6run.resp.text ≠ some paymentOptionsBlock := by
  decide

/-- Menu item A of the C7 scenario: both a left-half and a general
asset. -/
def itemA : CardItem :=
  { nome := lit "Pizza Amazonas", imagemEsquerda := some (lit "left-a"),
    imagemGeral := some (lit "gen-a") }

/-- Menu item B of the C7 scenario: only a right-half asset. -/
def itemB : CardItem :=
  { nome := lit "Pizza Dolce Banana", imagemDireita := some (lit "right-b") }

/-- Item lookup oracle for the C7 scenario. -/
def findC7 : Str → Option CardItem := fun s =>
  if s = lit "ida" then some itemA else if s = lit "idb" then some itemB else none

/-- Environment for the C7 counterexample: compositing fails inside
`overlayImages`. -/
def envC7 : Env := { baseEnv with overlayOk := false, findItem := findC7 }

/-- The C7 run: a composite image request whose overlay fails. -/
def c7run : PTOut :=
  processTaggedResponse envC7 (lit "[IMAGE_FORMAT]ida+idb[/END]") (lit "x")
    { telefone := lit "551", state := 1 } none {}

/-- C7 counterexample: when compositing fails inside `overlayImages`,
the resolver falls back to the base (right-half) asset and the error is
not surfaced — but the caption carries **no** "(visualização …)" suffix,
contradicting the claim that every fallback path suffixes the caption. -/
theorem C7_counterexample :
    c7run.resp.image = some (ImageVal.url (lit "right-b")) ∧
    c7run.resp.success = true ∧
    c7run.resp.imageCaption = some (lit "Pizza meio Amazonas e meio Dolce Banana") ∧
    (∀ cap, c7run.resp.imageCaption = some cap →
      strContains cap (lit "visualização") = false) := by
  decide

/-- Environment for the C8 counterexample: the model answers with a
confirmation-only output. -/
def envC8 : Env := { baseEnv with model := some (lit "[CONFIRMATION_FORMAT]ok[/END]") }

/-- The C8 turn: a confirmation-only model output on a fresh state-2
conversation. -/
def c8run : TurnOut :=
  processMessageInternally envC8 (lit "551") (lit "aguarde") false
    { telefone := lit "551", state := 2 } {}

/-- C8 counterexample: the model output `[CONFIRMATION_FORMAT]ok[/END]`
contains none of the four recognized blocks named by the claim, yet the
turn does not deliver the entire text as an implicit TEXT block: the
confirmation handling replaces it with a failure notice, because
`[CONFIRMATION_FORMAT]` is missing from the repair check's tag list. -/
theorem C8_counterexample :
    lacksTagFormat (lit "[CONFIRMATION_FORMAT]ok[/END]") = true ∧
    c8run.resp.text =
      some (lit "Não consegui encontrar os detalhes do seu pedido para confirmar. Por favor, tente fazer o pedido novamente.") ∧
    c8run.resp.text ≠
      some (textOpenTok ++ lit "[CONFIRMATION_FORMAT]ok[/END]" ++ endTok) := by
  decide

/-! ## Supporting lemmas -/

theorem truthyS_some_ne {s : Str} (h : s ≠ []) : truthyS (some s) = true := by
  cases s with
  | nil => exact absurd rfl h
  | cons c cs => rfl

theorem truthyImg_some_ne {s : Str} (h : s ≠ []) :
    truthyImg (some (ImageVal.url s)) = true := by
  cases s with
  | nil => exact absurd rfl h
  | cons c cs => rfl

theorem addConfirmationImage_text (b : Option BotConfig) (r : ResponseObj) :
    (addConfirmationImage b r).text = r.text := by
  unfold addConfirmationImage
  cases b with
  | none => rfl
  | some bc => by_cases h : truthyS bc.confirmationImage = true <;> simp [h]

theorem addConfirmationImage_state (b : Option BotConfig) (r : ResponseObj) :
    (addConfirmationImage b r).state = r.state := by
  unfold addConfirmationImage
  cases b with
  | none => rfl
  | some bc => by_cases h : truthyS bc.confirmationImage = true <;> simp [h]

theorem finalStep_of_truthy (br : Str) (r : ResponseObj) (h : truthyS r.text = true) :
    finalStep br r = r := by
  unfold finalStep
  simp [h]

/-- On a model reply whose only block is a confirmation, a conversation
that already carries a `pedidoId` short-circuits through the idempotency
guard: prior confirmation text plus configured image, and neither the
conversation nor the stores change. -/
theorem processTagged_conf_guard
    (env : Env) (br msg confBody : Str) (conv : Conversa) (bcO : Option BotConfig)
    (world : World) (pid : Nat)
    (hv : extractBlock voiceOpenTok br = none)
    (hi : extractAllBlocks imageOpenTok br = [])
    (hj : extractBlock jsonOpenTok br = none)
    (hc : extractBlock confOpenTok br = some confBody)
    (hpid : conv.pedidoId = some pid) :
    processTaggedResponse env br msg conv bcO world =
      ⟨addConfirmationImage bcO
        { success := true, state := some conv.state, text := some confBody },
       conv, world⟩ := by
  unfold processTaggedResponse voiceStep imageStep jsonStep confirmationStep
  simp only [hv, hi, hj, hc, hpid]

/-- On a model reply whose only block is a confirmation, an uncommitted
conversation with a staged payload whose address is non-empty and
contains a digit commits: exactly one order is appended, the
conversation moves to state 7 with the fresh `pedidoId`, and the
response carries the confirmation body plus the configured image. -/
theorem processTagged_conf_commit
    (env : Env) (br msg confBody e : Str) (conv : Conversa) (bcO : Option BotConfig)
    (world : World) (pd : PedidoData) (l : List PedidoItem)
    (hv : extractBlock voiceOpenTok br = none)
    (hi : extractAllBlocks imageOpenTok br = [])
    (hj : extractBlock jsonOpenTok br = none)
    (hc : extractBlock confOpenTok br = some confBody)
    (hcb : confBody ≠ [])
    (hpid : conv.pedidoId = none)
    (hpd : conv.pedidoData = some pd)
    (hil : pd.items = some l)
    (he : pd.endereco = some e)
    (hene : e ≠ [])
    (hdig : hasDigit e = true) :
    processTaggedResponse env br msg conv bcO world =
      ⟨addConfirmationImage bcO
        { success := true, state := some conv.state, text := some confBody },
       { conv with pedidoData := some pd, pedidoId := some world.pedidos.length,
                   state := 7 },
       { world with pedidos := world.pedidos ++
          [{ telefone := conv.telefone,
             itens := l.map (fun it =>
               { nome := it.nome, quantidade := some (jsQty it.quantidade),
                 preco := it.preco }),
             valorTotal := sumPedido l,
             endereco := e,
             formaPagamento := jsShow pd.pagamento,
             status := lit "Confirmado" }] }⟩ := by
  unfold processTaggedResponse voiceStep imageStep jsonStep confirmationStep commitPedido
  simp only [hv, hi, hj, hc, hpid, hpd, he, hil, jsShow,
    truthyS_some_ne hene, hdig, Bool.true_and, if_true, ite_true]
  rw [finalStep_of_truthy]
  rw [addConfirmationImage_text]
  exact truthyS_some_ne hcb

/-- C1 (amended): if the conversation already carries a `pedidoId`,
processing a reply with a `[CONFIRMATION_FORMAT]` block returns the
confirmation text and the configured confirmation image without
persisting a second order; invoking commit twice on an uncommitted
conversation persists exactly one order, and the two success responses
agree on text, image and every other field except the echoed `state`:
the first echoes the pre-commit state, the second echoes 7.  (The claim's
"structurally identical" fails only on that state field, per
`C1_counterexample`.) -/
theorem C1_idempotent_commit
    (env : Env) (br msg confBody e : Str) (conv : Conversa) (bcO : Option BotConfig)
    (world : World) (pd : PedidoData) (l : List PedidoItem)
    (hv : extractBlock voiceOpenTok br = none)
    (hi : extractAllBlocks imageOpenTok br = [])
    (hj : extractBlock jsonOpenTok br = none)
    (hc : extractBlock confOpenTok br = some confBody)
    (hcb : confBody ≠ [])
    (hpid : conv.pedidoId = none)
    (hpd : conv.pedidoData = some pd)
    (hil : pd.items = some l)
    (he : pd.endereco = some e)
    (hene : e ≠ [])
    (hdig : hasDigit e = true) :
    let o1 := processTaggedResponse env br msg conv bcO world
    let o2 := processTaggedResponse env br msg o1.conversa bcO o1.world
    o1.world.pedidos = world.pedidos ++
      [{ telefone := conv.telefone,
         itens := l.map (fun it =>
           { nome := it.nome, quantidade := some (jsQty it.quantidade),
             preco := it.preco }),
         valorTotal := sumPedido l, endereco := e,
         formaPagamento := jsShow pd.pagamento, status := lit "Confirmado" }] ∧
    o2.world = o1.world ∧
    o2.conversa = o1.conversa ∧
    o1.resp = addConfirmationImage bcO
      { success := true, state := some conv.state, text := some confBody } ∧
    o2.resp = addConfirmationImage bcO
      { success := true, state := some 7, text := some confBody } := by
  intro o1 o2
  have h1 := processTagged_conf_commit env br msg confBody e conv bcO world pd l
    hv hi hj hc hcb hpid hpd hil he hene hdig
  have ho1 : o1 = processTaggedResponse env br msg conv bcO world := rfl
  rw [h1] at ho1
  have h2 := processTagged_conf_guard env br msg confBody o1.conversa bcO o1.world
    world.pedidos.length hv hi hj hc (by rw [ho1])
  have ho2 : o2 = processTaggedResponse env br msg o1.conversa bcO o1.world := rfl
  rw [h2] at ho2
  refine ⟨by rw [ho1], by rw [ho2], by rw [ho2], by rw [ho1], ?_⟩
  rw [ho2, ho1]

/-- C1 witness: the amended idempotent-commit theorem applied to the
concrete scenario of the counterexample fixtures. -/
theorem C1_idempotent_commit_witness :
    let o1 := processTaggedResponse baseEnv brConf (lit "sim") convC1 (some bcConf) {}
    let o2 := processTaggedResponse baseEnv brConf (lit "sim") o1.conversa (some bcConf) o1.world
    o1.world.pedidos = ([] : List Pedido) ++
      [{ telefone := convC1.telefone,
         itens := ([{ nome := lit "Pizza Amazonas", quantidade := some 1, preco := 4500 }] : List PedidoItem).map
           (fun it => { nome := it.nome, quantidade := some (jsQty it.quantidade),
                        preco := it.preco }),
         valorTotal := sumPedido
           [{ nome := lit "Pizza Amazonas", quantidade := some 1, preco := 4500 }],
         endereco := lit "Rua Augusta, 100",
         formaPagamento := jsShow pdOk.pagamento, status := lit "Confirmado" }] ∧
    o2.world = o1.world ∧
    o2.conversa = o1.conversa ∧
    o1.resp = addConfirmationImage (some bcConf)
      { success := true, state := some convC1.state, text := some (lit "Ok!") } ∧
    o2.resp = addConfirmationImage (some bcConf)
      { success := true, state := some 7, text := some (lit "Ok!") } :=
  C1_idempotent_commit baseEnv brConf (lit "sim") (lit "Ok!") (lit "Rua Augusta, 100")
    convC1 (some bcConf) {} pdOk
    [{ nome := lit "Pizza Amazonas", quantidade := some 1, preco := 4500 }]
    (by decide) (by decide) (by decide) (by decide) (by decide)
    (by decide) (by decide) (by decide) (by decide) (by decide) (by decide)

theorem extractBlock_contains {t s p : Str} (h : extractBlock t s = some p) :
    strContains s t = true := by
  unfold extractBlock at h
  unfold strContains
  cases hs : splitFirst s t with
  | none => rw [hs] at h; exact absurd h (by simp)
  | some ab => simp [hs]

/-- A parsed `[JSON_FORMAT]` payload of valid shape whose address lacks
a digit makes `processTaggedResponse` return early: state forced to 4,
the fixed house-number request as the whole response, the staged
`pedidoData` of the conversation untouched, and no order persisted. -/
theorem processTagged_json_nodigit
    (env : Env) (br msg jstr e pg : Str) (conv : Conversa) (bcO : Option BotConfig)
    (world : World) (j : JsonData) (pd : PedidoData) (l : List PedidoItem)
    (hj : extractBlock jsonOpenTok br = some jstr)
    (hp : env.parseJson jstr = some j)
    (hjp : j.pedido = some pd)
    (hil : pd.items = some l)
    (he : pd.endereco = some e) (hene : e ≠ [])
    (hpg : pd.pagamento = some pg) (hpgne : pg ≠ [])
    (hdig : hasDigit e = false) :
    processTaggedResponse env br msg conv bcO world =
      ⟨{ success := true, state := some 4,
         text := some (lit "Preciso do número do endereço antes de confirmar. Por favor, informe o número completo.") },
       { conv with state := 4 },
       if conv.telefone.isEmpty then world else world.setTemp conv.telefone pd⟩ := by
  unfold processTaggedResponse jsonStep
  simp only [hj, hp, hjp, he, hpg, hil, jsShow, hdig,
    truthyS_some_ne hene, truthyS_some_ne hpgne, Option.isSome_some,
    Bool.true_and, Bool.and_true, Bool.not_false, if_true, ite_true]
  by_cases ht : conv.telefone.isEmpty = true <;> simp [ht]

/-- C3 witness fixture: the digit-less JSON reply. -/
def brJsonC3 : Str := lit "[JSON_FORMAT]payload-c3[/END]"

/-- C3 witness fixture: a parse oracle for `brJsonC3`'s payload. -/
def envC3 : Env :=
  { baseEnv with
    parseJson := fun s =>
      if s = lit "payload-c3" then some { pedido := some pdNoDigit } else none }

/-- C3 (amended): a parsed order payload of valid shape whose address
has no digit forces state 4 with the house-number request and persists
no order, and `processTaggedResponse` itself does not stage it — but the
post-model staging step (`src/index.js:2689-2710`) does stage any
parseable payload, digit or not, forcing state 6; and the state-6
confirmation example reverts to state 4 with no order only when no
digit-bearing `addressData.formattedAddress` is recoverable (otherwise
the address is recovered and the order commits, per
`C3_counterexample`). -/
theorem C3_digitless_payload_reverts :
    (∀ (env : Env) (br msg jstr e pg : Str) (conv : Conversa) (bcO : Option BotConfig)
       (world : World) (j : JsonData) (pd : PedidoData) (l : List PedidoItem),
       extractBlock jsonOpenTok br = some jstr →
       env.parseJson jstr = some j →
       j.pedido = some pd →
       pd.items = some l →
       pd.endereco = some e → e ≠ [] →
       pd.pagamento = some pg → pg ≠ [] →
       hasDigit e = false →
       (processTaggedResponse env br msg conv bcO world).conversa =
         { conv with state := 4 } ∧
       (processTaggedResponse env br msg conv bcO world).world.pedidos = world.pedidos ∧
       (processTaggedResponse env br msg conv bcO world).resp =
         { success := true, state := some 4,
           text := some (lit "Preciso do número do endereço antes de confirmar. Por favor, informe o número completo.") }) ∧
    (∀ (env : Env) (br jstr : Str) (conv : Conversa) (world : World) (j : JsonData),
       conv.telefone ≠ [] →
       extractBlock jsonOpenTok br = some jstr → jstr ≠ [] →
       env.parseJson (trimStr jstr) = some j →
       stageJsonBlock env br conv world =
         ({ conv with pedidoData := some (j.pedido.getD j.flat), state := 6 },
          world.setTemp conv.telefone (j.pedido.getD j.flat))) ∧
    (∀ (env : Env) (br msg confBody e : Str) (conv : Conversa) (bcO : Option BotConfig)
       (world : World) (pd : PedidoData),
       extractBlock voiceOpenTok br = none →
       extractAllBlocks imageOpenTok br = [] →
       extractBlock jsonOpenTok br = none →
       extractBlock confOpenTok br = some confBody →
       conv.pedidoId = none →
       conv.pedidoData = some pd →
       pd.endereco = some e →
       hasDigit e = false →
       conv.addressData = none →
       (processTaggedResponse env br msg conv bcO world).conversa =
         { conv with state := 4 } ∧
       (processTaggedResponse env br msg conv bcO world).world.pedidos = world.pedidos) := by
  refine ⟨?_, ?_, ?_⟩
  · intro env br msg jstr e pg conv bcO world j pd l hj hp hjp hil he hene hpg hpgne hdig
    rw [processTagged_json_nodigit env br msg jstr e pg conv bcO world j pd l
      hj hp hjp hil he hene hpg hpgne hdig]
    refine ⟨rfl, ?_, rfl⟩
    by_cases ht : conv.telefone.isEmpty = true <;> simp [ht, World.setTemp]
  · intro env br jstr conv world j hne hj hjne hp
    unfold stageJsonBlock
    simp only [extractBlock_contains hj, hj, hp, if_true, ite_true]
    have : conv.telefone.isEmpty = false := by
      cases h : conv.telefone with
      | nil => exact absurd h hne
      | cons c cs => rfl
    simp [this, hjne]
  · intro env br msg confBody e conv bcO world pd hv hi hj hc hpid hpd he hdig had
    unfold processTaggedResponse voiceStep imageStep jsonStep confirmationStep
    simp only [hv, hi, hj, hc, hpid, hpd, he, had, jsShow, hdig, Bool.and_false]
    exact ⟨rfl, rfl⟩

/-- C3 witness: the three parts of the amended theorem applied to
concrete inputs — the digit-less JSON early return, the unvalidated
post-model staging, and the no-recovery confirmation revert. -/
theorem C3_digitless_payload_reverts_witness :
    ((processTaggedResponse envC3 brJsonC3 (lit "x")
        { telefone := lit "551", state := 6 } none {}).conversa =
      { ({ telefone := lit "551", state := 6 } : Conversa) with state := 4 } ∧
     (processTaggedResponse envC3 brJsonC3 (lit "x")
        { telefone := lit "551", state := 6 } none {}).world.pedidos = ({} : World).pedidos ∧
     (processTaggedResponse envC3 brJsonC3 (lit "x")
        { telefone := lit "551", state := 6 } none {}).resp =
       { success := true, state := some 4,
         text := some (lit "Preciso do número do endereço antes de confirmar. Por favor, informe o número completo.") }) ∧
    (stageJsonBlock envC3 brJsonC3 { telefone := lit "551", state := 7 } {} =
      ({ ({ telefone := lit "551", state := 7 } : Conversa) with
          pedidoData := some pdNoDigit, state := 6 },
       World.setTemp {} (lit "551") pdNoDigit)) ∧
    ((processTaggedResponse baseEnv brConf (lit "x")
        { telefone := lit "551", state := 6, pedidoData := some pdNoDigit } none {}).conversa =
      { ({ telefone := lit "551", state := 6, pedidoData := some pdNoDigit } : Conversa) with
          state := 4 } ∧
     (processTaggedResponse baseEnv brConf (lit "x")
        { telefone := lit "551", state := 6, pedidoData := some pdNoDigit } none {}).world.pedidos =
       ({} : World).pedidos) := by
  refine ⟨?_, ?_, ?_⟩
  · exact C3_digitless_payload_reverts.1 envC3 brJsonC3 (lit "x") (lit "payload-c3")
      (lit "Rua Sem Numero") (lit "pix") { telefone := lit "551", state := 6 } none {}
      { pedido := some pdNoDigit } pdNoDigit
      [{ nome := lit "Pizza Amazonas", preco := 4500 }]
      (by decide) (by decide) (by decide) (by decide) (by decide) (by decide)
      (by decide) (by decide) (by decide)
  · have h := C3_digitless_payload_reverts.2.1 envC3 brJsonC3 (lit "payload-c3")
      { telefone := lit "551", state := 7 } {} { pedido := some pdNoDigit }
      (by decide) (by decide) (by decide) (by decide)
    simpa using h
  · exact C3_digitless_payload_reverts.2.2 baseEnv brConf (lit "x") (lit "Ok!")
      (lit "Rua Sem Numero")
      { telefone := lit "551", state := 6, pedidoData := some pdNoDigit } none {}
      pdNoDigit
      (by decide) (by decide) (by decide) (by decide) (by decide) (by decide)
      (by decide) (by decide) (by decide)

/-- A reply containing neither a `[JSON_FORMAT]` nor a
`[CONFIRMATION_FORMAT]` block leaves the conversation and the stores
unchanged through `processTaggedResponse`. -/
theorem processTagged_inert (env : Env) (br msg : Str) (conv : Conversa)
    (bcO : Option BotConfig) (world : World)
    (hj : extractBlock jsonOpenTok br = none)
    (hc : extractBlock confOpenTok br = none) :
    (processTaggedResponse env br msg conv bcO world).conversa = conv ∧
    (processTaggedResponse env br msg conv bcO world).world = world := by
  unfold processTaggedResponse jsonStep confirmationStep
  simp only [hj, hc]
  simp

/-- A turn in state 6 with an affirmative message is routed to the
direct commit path before any model call
(`src/index.js:2349-2352`). -/
theorem pmi_direct6 (env : Env) (phone msg : Str) (conv : Conversa) (world : World)
    (hph : phone.isEmpty = false) (hr : isResetMsg msg = false)
    (hcep : cepDetect msg = false) (h6 : conv.state = 6)
    (haff : affirmative6 msg = true) :
    processMessageInternally env phone msg false conv world =
      direct6Commit env
        { conv with mensagens := conv.mensagens ++ [⟨Role.user, msg⟩] } world msg := by
  unfold processMessageInternally
  simp [hph, hr, hcep, h6, haff, Option.orElse]

/-- C2 (amended): in state 6 the generic advance detector does require
all three conditions — its success implies an affirmative message, a
`[CONFIRMATION_FORMAT]` block in the model output and a truthy staged
payload — and an affirmative reply with no staged payload never commits;
but the direct commit path fires on an affirmative message plus any
staged payload alone, before the model is even called, so no
`[CONFIRMATION_FORMAT]` block and no address digit are required
(`C2_counterexample`). -/
theorem C2_state6_commit_conditions :
    (∀ (br msg : Str) (conv : Conversa),
       checkIfShouldAdvanceState br msg 6 conv = true →
       strContains br confOpenTok = true ∧
       conv.pedidoData.isSome = true ∧
       (strContains (lowerStr msg) (lit "sim") || strContains (lowerStr msg) (lit "confirmo") ||
        strContains (lowerStr msg) (lit "correto") || strContains (lowerStr msg) (lit "ok") ||
        strContains (lowerStr msg) (lit "pode ser")) = true) ∧
    (∀ (env : Env) (phone msg : Str) (conv : Conversa) (world : World),
       phone ≠ [] →
       isResetMsg msg = false →
       cepDetect msg = false →
       conv.state = 6 →
       affirmative6 msg = true →
       conv.pedidoData = none →
       (processMessageInternally env phone msg false conv world).world = world ∧
       (processMessageInternally env phone msg false conv world).conversa.state = 6 ∧
       (processMessageInternally env phone msg false conv world).usedModel = false) ∧
    (∀ (env : Env) (phone msg : Str) (conv : Conversa) (world : World)
       (pd : PedidoData) (it0 : PedidoItem) (rest : List PedidoItem),
       phone ≠ [] →
       isResetMsg msg = false →
       cepDetect msg = false →
       conv.state = 6 →
       affirmative6 msg = true →
       conv.pedidoData = some pd →
       pd.items = some (it0 :: rest) →
       conv.addressData = none →
       extractBlock jsonOpenTok (confirmacaoTemplate it0 (jsShow pd.endereco)
         (jsShow pd.pagamento) (sumPedido (it0 :: rest))) = none →
       extractBlock confOpenTok (confirmacaoTemplate it0 (jsShow pd.endereco)
         (jsShow pd.pagamento) (sumPedido (it0 :: rest))) = none →
       (processMessageInternally env phone msg false conv world).world.pedidos =
         world.pedidos ++
           [{ telefone := conv.telefone, itens := it0 :: rest,
              valorTotal := sumPedido (it0 :: rest),
              endereco := jsShow pd.endereco,
              formaPagamento := jsShow pd.pagamento,
              status := lit "Confirmado" }] ∧
       (processMessageInternally env phone msg false conv world).conversa.state = 7 ∧
       (processMessageInternally env phone msg false conv world).usedModel = false) := by
  refine ⟨?_, ?_, ?_⟩
  · intro br msg conv h
    unfold checkIfShouldAdvanceState at h
    cases hpd : conv.pedidoData with
    | none => rw [hpd] at h; simp at h
    | some pd =>
      rw [hpd] at h
      simp only [Bool.and_eq_true] at h
      refine ⟨h.1.2, rfl, ?_⟩
      have := h.1.1
      simp only [Bool.or_eq_true] at this ⊢
      tauto
  · intro env phone msg conv world hph hr hcep h6 haff hpd
    have hphe : phone.isEmpty = false := by
      cases phone with
      | nil => exact absurd rfl hph
      | cons c cs => rfl
    rw [pmi_direct6 env phone msg conv world hphe hr hcep h6 haff]
    unfold direct6Commit
    simp only [hpd]
    simp [h6]
  · intro env phone msg conv world pd it0 rest hph hr hcep h6 haff hpd hit had hcl1 hcl2
    have hphe : phone.isEmpty = false := by
      cases phone with
      | nil => exact absurd rfl hph
      | cons c cs => rfl
    rw [pmi_direct6 env phone msg conv world hphe hr hcep h6 haff]
    unfold direct6Commit
    simp only [hpd, hit, had]
    rw [(processTagged_inert _ _ _ _ _ _ hcl1 hcl2).1,
        (processTagged_inert _ _ _ _ _ _ hcl1 hcl2).2]
    simp

/-- C2 witness: the three parts of the amended theorem at concrete
inputs — the detector's necessity direction, the commit-refusal with no
staged payload, and the model-free direct commit. -/
theorem C2_state6_commit_conditions_witness :
    (strContains (lit "[CONFIRMATION_FORMAT]x[/END]") confOpenTok = true ∧
     (convC1.pedidoData).isSome = true ∧
     (strContains (lowerStr (lit "sim")) (lit "sim") ||
      strContains (lowerStr (lit "sim")) (lit "confirmo") ||
      strContains (lowerStr (lit "sim")) (lit "correto") ||
      strContains (lowerStr (lit "sim")) (lit "ok") ||
      strContains (lowerStr (lit "sim")) (lit "pode ser")) = true) ∧
    ((processMessageInternally baseEnv (lit "551") (lit "sim") false
        { telefone := lit "551", state := 6 } {}).world = {} ∧
     (processMessageInternally baseEnv (lit "551") (lit "sim") false
        { telefone := lit "551", state := 6 } {}).conversa.state = 6 ∧
     (processMessageInternally baseEnv (lit "551") (lit "sim") false
        { telefone := lit "551", state := 6 } {}).usedModel = false) ∧
    (c2run.world.pedidos = ({} : World).pedidos ++
       [{ telefone := convC2.telefone,
          itens := [{ nome := lit "Pizza Amazonas", preco := 4500 }],
          valorTotal := sumPedido [{ nome := lit "Pizza Amazonas", preco := 4500 }],
          endereco := jsShow pdNoDigit.endereco,
          formaPagamento := jsShow pdNoDigit.pagamento,
          status := lit "Confirmado" }] ∧
     c2run.conversa.state = 7 ∧
     c2run.usedModel = false) := by
  refine ⟨?_, ?_, ?_⟩
  · exact C2_state6_commit_conditions.1 (lit "[CONFIRMATION_FORMAT]x[/END]") (lit "sim")
      convC1 (by decide)
  · exact C2_state6_commit_conditions.2.1 baseEnv (lit "551") (lit "sim")
      { telefone := lit "551", state := 6 } {}
      (by decide) (by decide) (by decide) (by decide) (by decide) (by decide)
  · exact C2_state6_commit_conditions.2.2 baseEnv (lit "551") (lit "sim")
      convC2 {} pdNoDigit { nome := lit "Pizza Amazonas", preco := 4500 } []
      (by decide) (by decide) (by decide) (by decide) (by decide) (by decide)
      (by decide) (by decide) (by decide) (by decide)

theorem jsQty_eq_getD {q : Option Nat} (h : q ≠ some 0) : jsQty q = q.getD 1 := by
  cases q with
  | none => rfl
  | some n =>
    cases n with
    | zero => exact absurd rfl h
    | succ m => rfl

theorem sumPedido_foldl_aux :
    ∀ (l : List PedidoItem) (acc : Int), (∀ it ∈ l, it.quantidade ≠ some 0) →
      l.foldl (fun acc it => acc + it.preco * (jsQty it.quantidade : Int)) acc =
        acc + (l.map (fun it => it.preco * ((it.quantidade.getD 1 : Nat) : Int))).sum
  | [], acc, _ => by simp
  | x :: xs, acc, h => by
    have hx : x.quantidade ≠ some 0 := h x (by simp)
    have hxs : ∀ it ∈ xs, it.quantidade ≠ some 0 := fun it hit => h it (by simp [hit])
    rw [List.foldl_cons, jsQty_eq_getD hx,
        sumPedido_foldl_aux xs (acc + x.preco * ((x.quantidade.getD 1 : Nat) : Int)) hxs]
    simp [List.map_cons, List.sum_cons]
    ring

/-- The server-side total equals the sum of price times quantity with
quantity defaulting to 1, whenever no explicit zero quantity occurs
(JavaScript `q || 1` also maps an explicit `0` to 1). -/
theorem sumPedido_spec (l : List PedidoItem) (h : ∀ it ∈ l, it.quantidade ≠ some 0) :
    sumPedido l = (l.map (fun it => it.preco * ((it.quantidade.getD 1 : Nat) : Int))).sum := by
  unfold sumPedido
  simpa using sumPedido_foldl_aux l 0 h

/-- C9: every committed order's persisted `valorTotal` is computed
server-side as `Σ price × quantity` (quantity defaulting to 1) over the
order's items, on both commit paths — the `[CONFIRMATION_FORMAT]` path
of `processTaggedResponse` and the direct state-6 path of
`processMessageInternally` — and a model-supplied `total` field of the
payload is never consulted: replacing it by any value leaves the
persisted orders identical. -/
theorem C9_total_computed_server_side :
    (∀ (env : Env) (br msg confBody e : Str) (conv : Conversa) (bcO : Option BotConfig)
       (world : World) (pd : PedidoData) (l : List PedidoItem),
       extractBlock voiceOpenTok br = none →
       extractAllBlocks imageOpenTok br = [] →
       extractBlock jsonOpenTok br = none →
       extractBlock confOpenTok br = some confBody →
       confBody ≠ [] →
       conv.pedidoId = none →
       conv.pedidoData = some pd →
       pd.items = some l →
       pd.endereco = some e → e ≠ [] →
       hasDigit e = true →
       (∀ it ∈ l, it.quantidade ≠ some 0) →
       ∀ t : Option Int,
         (processTaggedResponse env br msg
             { conv with pedidoData := some { pd with total := t } } bcO world).world.pedidos =
           world.pedidos ++
             [{ telefone := conv.telefone,
                itens := l.map (fun it =>
                  { nome := it.nome, quantidade := some (jsQty it.quantidade),
                    preco := it.preco }),
                valorTotal :=
                  (l.map (fun it => it.preco * ((it.quantidade.getD 1 : Nat) : Int))).sum,
                endereco := e,
                formaPagamento := jsShow pd.pagamento,
                status := lit "Confirmado" }]) ∧
    (∀ (env : Env) (phone msg : Str) (conv : Conversa) (world : World)
       (pd : PedidoData) (it0 : PedidoItem) (rest : List PedidoItem),
       phone ≠ [] →
       isResetMsg msg = false →
       cepDetect msg = false →
       conv.state = 6 →
       affirmative6 msg = true →
       conv.pedidoData = some pd →
       pd.items = some (it0 :: rest) →
       conv.addressData = none →
       extractBlock jsonOpenTok (confirmacaoTemplate it0 (jsShow pd.endereco)
         (jsShow pd.pagamento) (sumPedido (it0 :: rest))) = none →
       extractBlock confOpenTok (confirmacaoTemplate it0 (jsShow pd.endereco)
         (jsShow pd.pagamento) (sumPedido (it0 :: rest))) = none →
       (∀ it ∈ it0 :: rest, it.quantidade ≠ some 0) →
       ∀ t : Option Int,
         (processMessageInternally env phone msg false
             { conv with pedidoData := some { pd with total := t } } world).world.pedidos =
           world.pedidos ++
             [{ telefone := conv.telefone, itens := it0 :: rest,
                valorTotal :=
                  ((it0 :: rest).map
                    (fun it => it.preco * ((it.quantidade.getD 1 : Nat) : Int))).sum,
                endereco := jsShow pd.endereco,
                formaPagamento := jsShow pd.pagamento,
                status := lit "Confirmado" }]) := by
  constructor
  · intro env br msg confBody e conv bcO world pd l hv hi hj hc hcb hpid hpd hil he hene hdig hq t
    have h := processTagged_conf_commit env br msg confBody e
      { conv with pedidoData := some { pd with total := t } } bcO world
      { pd with total := t } l hv hi hj hc hcb (by simpa using hpid) rfl
      (by simpa using hil) (by simpa using he) hene hdig
    rw [h]
    simp [sumPedido_spec l hq]
  · intro env phone msg conv world pd it0 rest hph hr hcep h6 haff hpd hit had hcl1 hcl2 hq t
    have hphe : phone.isEmpty = false := by
      cases phone with
      | nil => exact absurd rfl hph
      | cons c cs => rfl
    rw [pmi_direct6 env phone msg
      { conv with pedidoData := some { pd with total := t } } world hphe hr hcep
      (by simpa using h6) haff]
    unfold direct6Commit
    simp only [hit, had]
    rw [(processTagged_inert _ _ _ _ _ _ hcl1 hcl2).2]
    simp [sumPedido_spec _ hq]

/-- C9 witness: both conjuncts of the server-side-total theorem at a
concrete payload carrying an explicit (ignored) `total` field. -/
theorem C9_total_computed_server_side_witness :
    ((processTaggedResponse baseEnv brConf (lit "sim")
        { convC1 with pedidoData := some { pdOk with total := some 99 } }
        (some bcConf) {}).world.pedidos =
      ({} : World).pedidos ++
        [{ telefone := convC1.telefone,
           itens := ([{ nome := lit "Pizza Amazonas", quantidade := some 1, preco := 4500 }] :
               List PedidoItem).map
             (fun it => { nome := it.nome, quantidade := some (jsQty it.quantidade),
                          preco := it.preco }),
           valorTotal :=
             (([{ nome := lit "Pizza Amazonas", quantidade := some 1, preco := 4500 }] :
                List PedidoItem).map
               (fun it => it.preco * ((it.quantidade.getD 1 : Nat) : Int))).sum,
           endereco := lit "Rua Augusta, 100",
           formaPagamento := jsShow pdOk.pagamento,
           status := lit "Confirmado" }]) ∧
    ((processMessageInternally baseEnv (lit "551") (lit "sim") false
        { convC2 with pedidoData := some { pdNoDigit with total := some 99 } } {}).world.pedidos =
      ({} : World).pedidos ++
        [{ telefone := convC2.telefone,
           itens := [{ nome := lit "Pizza Amazonas", preco := 4500 }],
           valorTotal :=
             (([{ nome := lit "Pizza Amazonas", preco := 4500 }] : List PedidoItem).map
               (fun it => it.preco * ((it.quantidade.getD 1 : Nat) : Int))).sum,
           endereco := jsShow pdNoDigit.endereco,
           formaPagamento := jsShow pdNoDigit.pagamento,
           status := lit "Confirmado" }]) := by
  constructor
  · exact C9_total_computed_server_side.1 baseEnv brConf (lit "sim") (lit "Ok!")
      (lit "Rua Augusta, 100") convC1 (some bcConf) {} pdOk
      [{ nome := lit "Pizza Amazonas", quantidade := some 1, preco := 4500 }]
      (by decide) (by decide) (by decide) (by decide) (by decide) (by decide)
      (by decide) (by decide) (by decide) (by decide) (by decide) (by decide)
      (some 99)
  · exact C9_total_computed_server_side.2 baseEnv (lit "551") (lit "sim")
      convC2 {} pdNoDigit { nome := lit "Pizza Amazonas", preco := 4500 } []
      (by decide) (by decide) (by decide) (by decide) (by decide) (by decide)
      (by decide) (by decide) (by decide) (by decide) (by decide)
      (some 99)

theorem splitFirst_sound :
    ∀ (s pat a b : Str), splitFirst s pat = some (a, b) → s = a ++ (pat ++ b) := by
  intro s
  induction s with
  | nil =>
    intro pat a b h
    unfold splitFirst at h
    split at h
    · rename_i hp
      have hpat : pat = [] := by
        cases pat with
        | nil => rfl
        | cons c cs => simp [List.isPrefixOf] at hp
      injection h with h1
      injection h1 with ha hb
      subst hpat
      simp [← ha, ← hb]
    · exact absurd h (by simp)
  | cons c rest ih =>
    intro pat a b h
    unfold splitFirst at h
    split at h
    · rename_i hp
      obtain ⟨t, ht⟩ : ∃ t, pat ++ t = c :: rest := by
        have := (List.isPrefixOf_iff_prefix).mp hp
        exact this
      injection h with h1
      injection h1 with ha hb
      subst ha
      rw [← hb, ← ht]
      simp
    · dsimp only at h
      cases hrec : splitFirst rest pat with
      | none => rw [hrec] at h; exact absurd h (by simp)
      | some p =>
        obtain ⟨a1, b1⟩ := p
        rw [hrec] at h
        dsimp only [Option.map] at h
        injection h with h1
        injection h1 with ha hb
        have := ih pat a1 b1 (by rw [hrec])
        rw [← ha, ← hb]
        simp [this]

theorem strContains_mid : ∀ (u x v : Str), strContains (u ++ (x ++ v)) x = true := by
  intro u
  induction u with
  | nil =>
    intro x v
    unfold strContains splitFirst
    have hp : x.isPrefixOf (x ++ v) = true :=
      (List.isPrefixOf_iff_prefix).mpr (List.prefix_append x v)
    simp [hp]
  | cons c u' ih =>
    intro x v
    unfold strContains splitFirst
    split
    · simp
    · have := ih x v
      unfold strContains at this
      cases hrec : splitFirst (u' ++ (x ++ v)) x with
      | none => rw [hrec] at this; exact absurd this (by simp)
      | some p => simp [hrec]

theorem strContains_sub (u s v x : Str) (h : strContains s x = true) :
    strContains (u ++ (s ++ v)) x = true := by
  unfold strContains at h
  cases hs : splitFirst s x with
  | none => rw [hs] at h; exact absurd h (by simp)
  | some p =>
    obtain ⟨a1, b1⟩ := p
    have hsnd := splitFirst_sound s x a1 b1 (by rw [hs])
    rw [hsnd]
    have hassoc : u ++ ((a1 ++ (x ++ b1)) ++ v) = (u ++ a1) ++ (x ++ (b1 ++ v)) := by
      simp [List.append_assoc]
    rw [hassoc]
    exact strContains_mid (u ++ a1) x (b1 ++ v)

theorem replaceFirst_contains (s pat repl : Str) (h : strContains s pat = true) :
    strContains (replaceFirst s pat repl) repl = true := by
  unfold strContains at h
  unfold replaceFirst
  cases hs : splitFirst s pat with
  | none => rw [hs] at h; exact absurd h (by simp)
  | some p =>
    obtain ⟨a1, b1⟩ := p
    dsimp only
    have hassoc : a1 ++ repl ++ b1 = a1 ++ (repl ++ b1) := by simp
    rw [hassoc]
    exact strContains_mid a1 repl b1

/-- A turn in state 4 whose digits-only override applies returns the
override result directly, with no model call. -/
theorem pmi_state4 (env : Env) (phone msg : Str) (conv : Conversa) (world : World)
    (sp : ResponseObj × Conversa)
    (hph : phone.isEmpty = false) (hr : isResetMsg msg = false)
    (hcep : cepDetect msg = false) (h4 : conv.state = 4)
    (hsp : state4NumberSplice
      { conv with mensagens := conv.mensagens ++ [⟨Role.user, msg⟩] } msg = some sp) :
    processMessageInternally env phone msg false conv world =
      { resp := sp.1, conversa := sp.2, world := world } := by
  obtain ⟨tel, st0, men, adr, pdd, pid, lj⟩ := conv
  dsimp only at h4 hsp
  subst h4
  unfold processMessageInternally
  simp [hph, hr, hcep, hsp, Option.orElse]

/-- The spliced formatted address of the state-4 override: the number is
inserted after the stored street (inside the previously formatted
address when one exists). -/
def splicedAddress (ad : AddressData) (st num : Str) : Str :=
  if truthyS ad.formattedAddress then
    replaceFirst (jsShow ad.formattedAddress) st (st ++ lit ", " ++ num)
  else st ++ lit ", " ++ num

/-- The canned reply of the state-4 override
(`src/index.js:2263`). -/
def spliceReplyText (fa : Str) : Str :=
  textOpenTok ++
  (lit "Perfeito! Endereço registrado: " ++ fa ++
   lit ". Qual será a forma de pagamento? Temos as opções: Dinheiro, Cartão de crédito, Cartão de débito, PIX ou VR.") ++
  endTok

/-- Characterization of the digits-only override
(`src/index.js:2218-2282`). -/
theorem state4NumberSplice_spec (conv : Conversa) (msg st : Str)
    (ad : AddressData) (comp : Components)
    (hd : digitsOnly msg = true)
    (had : conv.addressData = some ad)
    (hcomp : ad.components = some comp)
    (hst : comp.street = some st) (hstne : st ≠ []) :
    state4NumberSplice conv msg =
      some ({ success := true, state := some 5,
              text := some (spliceReplyText (splicedAddress ad st (trimStr msg))) },
            { conv with
              addressData := some { ad with
                formattedAddress := some (splicedAddress ad st (trimStr msg)) },
              pedidoData := conv.pedidoData.map (fun pd =>
                { pd with endereco := some (splicedAddress ad st (trimStr msg)) }),
              state := 5,
              mensagens := conv.mensagens ++
                [⟨Role.bot, spliceReplyText (splicedAddress ad st (trimStr msg))⟩] }) := by
  unfold state4NumberSplice splicedAddress spliceReplyText
  simp only [hd, had, hcomp, hst, jsShow, truthyS_some_ne hstne, if_true, ite_true]
  cases hpd : conv.pedidoData with
  | none => simp [hpd]
  | some pd => simp [hpd]

/-- C5: in state 4 with a previously resolved street, a digits-only
message is spliced as the house number into the stored street (or into
the previously formatted address at the street's position), the
conversation advances directly to state 5, and the canned
payment-options reply — containing "street, number" and the payment
options — is returned without invoking the language model.  The stored
street is required non-empty and, when a formatted address exists, to
occur within it (both guaranteed by the CEP resolver that produced
them); the digits-only message must not itself parse as a CEP (fewer
than eight digits), since a CEP lookup would first replace the stored
address data. -/
theorem C5_state4_number_splice
    (env : Env) (phone msg st : Str) (conv : Conversa) (world : World)
    (ad : AddressData) (comp : Components)
    (hph : phone ≠ [])
    (hr : isResetMsg msg = false)
    (hcep : cepDetect msg = false)
    (h4 : conv.state = 4)
    (hd : digitsOnly msg = true)
    (had : conv.addressData = some ad)
    (hcomp : ad.components = some comp)
    (hst : comp.street = some st) (hstne : st ≠ [])
    (hfa : truthyS ad.formattedAddress = false ∨
           strContains (jsShow ad.formattedAddress) st = true) :
    (processMessageInternally env phone msg false conv world).conversa.state = 5 ∧
    (processMessageInternally env phone msg false conv world).usedModel = false ∧
    (processMessageInternally env phone msg false conv world).resp.state = some 5 ∧
    (processMessageInternally env phone msg false conv world).resp.text =
      some (spliceReplyText (splicedAddress ad st (trimStr msg))) ∧
    strContains (spliceReplyText (splicedAddress ad st (trimStr msg)))
      (st ++ lit ", " ++ trimStr msg) = true ∧
    strContains (spliceReplyText (splicedAddress ad st (trimStr msg)))
      (lit "Qual será a forma de pagamento? Temos as opções: Dinheiro, Cartão de crédito, Cartão de débito, PIX ou VR.") = true := by
  have hphe : phone.isEmpty = false := by
    cases phone with
    | nil => exact absurd rfl hph
    | cons c cs => rfl
  have hsp := state4NumberSplice_spec
    { conv with mensagens := conv.mensagens ++ [⟨Role.user, msg⟩] } msg st ad comp
    hd (by simpa using had) hcomp hst hstne
  rw [pmi_state4 env phone msg conv world _ hphe hr hcep h4 hsp]
  refine ⟨rfl, rfl, rfl, rfl, ?_, ?_⟩
  · -- the spliced "street, number" occurs in the reply
    have hin : strContains (splicedAddress ad st (trimStr msg))
        (st ++ lit ", " ++ trimStr msg) = true := by
      unfold splicedAddress
      cases htr : truthyS ad.formattedAddress with
      | false =>
        rw [if_neg (by simp)]
        simpa using strContains_mid [] (st ++ lit ", " ++ trimStr msg) []
      | true =>
        have hocc : strContains (jsShow ad.formattedAddress) st = true := by
          cases hfa with
          | inl hfalse => rw [htr] at hfalse; exact absurd hfalse (by simp)
          | inr h => exact h
        rw [if_pos rfl]
        exact replaceFirst_contains (jsShow ad.formattedAddress) st
          (st ++ lit ", " ++ trimStr msg) hocc
    have hshape1 : spliceReplyText (splicedAddress ad st (trimStr msg)) =
        (textOpenTok ++ lit "Perfeito! Endereço registrado: ") ++
        (splicedAddress ad st (trimStr msg) ++
         (lit ". Qual será a forma de pagamento? Temos as opções: Dinheiro, Cartão de crédito, Cartão de débito, PIX ou VR." ++
          endTok)) := by
      unfold spliceReplyText
      simp [List.append_assoc]
    rw [hshape1]
    exact strContains_sub _ _ _ _ hin
  · -- the payment options occur in the reply
    have hB : (lit ". Qual será a forma de pagamento? Temos as opções: Dinheiro, Cartão de crédito, Cartão de débito, PIX ou VR." : Str) =
        lit ". " ++
        lit "Qual será a forma de pagamento? Temos as opções: Dinheiro, Cartão de crédito, Cartão de débito, PIX ou VR." := by
      decide
    have hshape2 : spliceReplyText (splicedAddress ad st (trimStr msg)) =
        (textOpenTok ++ (lit "Perfeito! Endereço registrado: " ++
          (splicedAddress ad st (trimStr msg) ++ lit ". "))) ++
        (lit "Qual será a forma de pagamento? Temos as opções: Dinheiro, Cartão de crédito, Cartão de débito, PIX ou VR." ++
         endTok) := by
      unfold spliceReplyText
      rw [hB]
      simp [List.append_assoc]
    rw [hshape2]
    exact strContains_mid _ _ _

/-- C5 witness fixture: resolved address components with street "Rua
Augusta". -/
def compC5 : Components := { street := some (lit "Rua Augusta") }

/-- C5 witness fixture: address data from a prior CEP resolution. -/
def adC5 : AddressData :=
  { formattedAddress := some (lit "Rua Augusta, Consolação, São Paulo"),
    components := some compC5 }

/-- C5 witness fixture: a state-4 conversation holding `adC5`. -/
def convC5 : Conversa := { telefone := lit "551", state := 4, addressData := some adC5 }

/-- C5 witness: the state-4 number splice at street "Rua Augusta" and
message "1234" — state 5, no model call, and a reply containing
"Rua Augusta, 1234" and the payment options. -/
theorem C5_state4_number_splice_witness :
    (processMessageInternally baseEnv (lit "551") (lit "1234") false convC5 {}).conversa.state = 5 ∧
    (processMessageInternally baseEnv (lit "551") (lit "1234") false convC5 {}).usedModel = false ∧
    (processMessageInternally baseEnv (lit "551") (lit "1234") false convC5 {}).resp.state = some 5 ∧
    (processMessageInternally baseEnv (lit "551") (lit "1234") false convC5 {}).resp.text =
      some (spliceReplyText (splicedAddress adC5 (lit "Rua Augusta") (trimStr (lit "1234")))) ∧
    strContains (spliceReplyText (splicedAddress adC5 (lit "Rua Augusta") (trimStr (lit "1234"))))
      (lit "Rua Augusta" ++ lit ", " ++ trimStr (lit "1234")) = true ∧
    strContains (spliceReplyText (splicedAddress adC5 (lit "Rua Augusta") (trimStr (lit "1234"))))
      (lit "Qual será a forma de pagamento? Temos as opções: Dinheiro, Cartão de crédito, Cartão de débito, PIX ou VR.") = true :=
  C5_state4_number_splice baseEnv (lit "551") (lit "1234") (lit "Rua Augusta")
    convC5 {} adC5 compC5
    (by decide) (by decide) (by decide) (by decide) (by decide) (by decide)
    (by decide) (by decide) (by decide) (Or.inr (by decide))

theorem finalStep_image (br : Str) (r : ResponseObj) : (finalStep br r).image = r.image := by
  unfold finalStep
  split <;> first | rfl | (split <;> rfl)

theorem finalStep_imageCaption (br : Str) (r : ResponseObj) :
    (finalStep br r).imageCaption = r.imageCaption := by
  unfold finalStep
  split <;> first | rfl | (split <;> rfl)

theorem finalStep_success (br : Str) (r : ResponseObj) :
    (finalStep br r).success = r.success := by
  unfold finalStep
  split <;> first | rfl | (split <;> rfl)

/-- The image-step attaches the resolved first image and its caption
(when truthy) without touching `success`. -/
theorem imageStep_single (env : Env) (br : Str) (conv : Conversa)
    (bcO : Option BotConfig) (resp : ResponseObj) (aid : Str)
    (hi : extractAllBlocks imageOpenTok br = [aid])
    (hfound : truthyImg (resolveFirstImage env bcO (trimStr aid)).1 = true) :
    (imageStep env br conv bcO resp).image = (resolveFirstImage env bcO (trimStr aid)).1 ∧
    (imageStep env br conv bcO resp).imageCaption =
      (if truthyS (resolveFirstImage env bcO (trimStr aid)).2 then
        (resolveFirstImage env bcO (trimStr aid)).2 else resp.imageCaption) ∧
    (imageStep env br conv bcO resp).success = resp.success := by
  unfold imageStep
  rw [hi]
  dsimp only
  rcases hres : resolveFirstImage env bcO (trimStr aid) with ⟨u0, cap0⟩
  rw [hres] at hfound
  cases u0 with
  | none => simp [truthyImg] at hfound
  | some u =>
    refine ⟨?_, ?_, ?_⟩ <;>
      simp only [hfound, if_true, ite_true] <;>
      (split <;> (try split) <;> (try split) <;> (try split) <;> simp)

/-- Under a single-image reply, the final response's image, caption and
success flag are those produced by `resolveFirstImage`. -/
theorem processTagged_single_image (env : Env) (br msg aid : Str) (conv : Conversa)
    (bcO : Option BotConfig) (world : World)
    (hv : extractBlock voiceOpenTok br = none)
    (hi : extractAllBlocks imageOpenTok br = [aid])
    (hj : extractBlock jsonOpenTok br = none)
    (hc : extractBlock confOpenTok br = none)
    (hfound : truthyImg (resolveFirstImage env bcO (trimStr aid)).1 = true) :
    (processTaggedResponse env br msg conv bcO world).resp.image =
      (resolveFirstImage env bcO (trimStr aid)).1 ∧
    (processTaggedResponse env br msg conv bcO world).resp.imageCaption =
      (if truthyS (resolveFirstImage env bcO (trimStr aid)).2 then
        (resolveFirstImage env bcO (trimStr aid)).2 else none) ∧
    (processTaggedResponse env br msg conv bcO world).resp.success = true := by
  have hstep := imageStep_single env br conv bcO
    (voiceStep env br conv { success := true, state := some conv.state, text := some br })
    aid hi hfound
  have hvst : voiceStep env br conv
      { success := true, state := some conv.state, text := some br } =
      { success := true, state := some conv.state, text := some br } := by
    unfold voiceStep
    rw [hv]
  rw [hvst] at hstep
  unfold processTaggedResponse jsonStep confirmationStep
  dsimp only
  rw [hvst]
  simp only [hj, hc]
  rw [finalStep_image, finalStep_imageCaption, finalStep_success]
  exact ⟨hstep.1, hstep.2.1, hstep.2.2⟩

/-- C7 (amended): for a composite id "A+B" with both items found, the
resolver uses B's right-half asset as the base canvas (drawn full-frame
first, canvas sized to B) with A's left-half asset drawn full-frame on
top, captioned "Pizza meio A e meio B"; when a half-asset is missing and
both items carry general assets, it falls back to A's general asset with
the "(visualização aproximada)" suffix; when compositing fails inside
`overlayImages`, it falls back to the base (right-half) asset without
surfacing an error but with an unsuffixed caption; the "(visualização
parcial)" suffix appears only when the overlay call itself throws; and a
single-image reply's response carries the resolver's image and caption
with `success = true`.  (The claim's "whenever a fallback path was used
the caption carries a suffix" fails, per `C7_counterexample`.) -/
theorem C7_composite_image_resolution :
    (∀ (env : Env) (bcO : Option BotConfig) (aid a1 a2 rb la : Str) (A B : CardItem),
       aid ≠ lit "cardapio" → aid ≠ lit "menu" →
       strContains aid (lit "+") = true →
       splitAll aid (lit "+") = [a1, a2] →
       env.findItem a1 = some A → env.findItem a2 = some B →
       A.imagemEsquerda = some la → la ≠ [] →
       B.imagemDireita = some rb → rb ≠ [] →
       env.overlayThrows = false →
       (env.overlayOk = true →
         resolveFirstImage env bcO aid =
           (some (ImageVal.composite rb la), some (mkMeioCaption A B))) ∧
       (env.overlayOk = false →
         resolveFirstImage env bcO aid =
           (some (ImageVal.url rb), some (mkMeioCaption A B)))) ∧
    (∀ (env : Env) (bcO : Option BotConfig) (aid a1 a2 rb la : Str) (A B : CardItem),
       aid ≠ lit "cardapio" → aid ≠ lit "menu" →
       strContains aid (lit "+") = true →
       splitAll aid (lit "+") = [a1, a2] →
       env.findItem a1 = some A → env.findItem a2 = some B →
       A.imagemEsquerda = some la → la ≠ [] →
       B.imagemDireita = some rb → rb ≠ [] →
       env.overlayThrows = true →
       resolveFirstImage env bcO aid =
         (some (ImageVal.url la),
          some (mkMeioCaption A B ++ lit " (visualização parcial)"))) ∧
    (∀ (env : Env) (bcO : Option BotConfig) (aid a1 a2 ga : Str) (A B : CardItem),
       aid ≠ lit "cardapio" → aid ≠ lit "menu" →
       strContains aid (lit "+") = true →
       splitAll aid (lit "+") = [a1, a2] →
       env.findItem a1 = some A → env.findItem a2 = some B →
       truthyS B.imagemDireita = false ∨ truthyS A.imagemEsquerda = false →
       A.imagemGeral = some ga → ga ≠ [] →
       truthyS B.imagemGeral = true →
       resolveFirstImage env bcO aid =
         (some (ImageVal.url ga),
          some (mkMeioCaption A B ++ lit " (visualização aproximada)"))) ∧
    (∀ (env : Env) (br msg aid : Str) (conv : Conversa) (bcO : Option BotConfig)
       (world : World),
       extractBlock voiceOpenTok br = none →
       extractAllBlocks imageOpenTok br = [aid] →
       extractBlock jsonOpenTok br = none →
       extractBlock confOpenTok br = none →
       truthyImg (resolveFirstImage env bcO (trimStr aid)).1 = true →
       (processTaggedResponse env br msg conv bcO world).resp.image =
         (resolveFirstImage env bcO (trimStr aid)).1 ∧
       (processTaggedResponse env br msg conv bcO world).resp.success = true) := by
  refine ⟨?_, ?_, ?_, ?_⟩
  · intro env bcO aid a1 a2 rb la A B h1 h2 hplus hsplit hA hB hla hlane hrb hrbne hthr
    constructor
    · intro hok
      unfold resolveFirstImage overlayImages
      simp [h1, h2, hplus, hsplit, hA, hB, hla, hrb, hthr, hok,
        truthyS_some_ne hlane, truthyS_some_ne hrbne, jsShow]
    · intro hok
      unfold resolveFirstImage overlayImages
      simp [h1, h2, hplus, hsplit, hA, hB, hla, hrb, hthr, hok,
        truthyS_some_ne hlane, truthyS_some_ne hrbne, jsShow]
  · intro env bcO aid a1 a2 rb la A B h1 h2 hplus hsplit hA hB hla hlane hrb hrbne hthr
    unfold resolveFirstImage
    simp [h1, h2, hplus, hsplit, hA, hB, hla, hrb, hthr,
      truthyS_some_ne hlane, truthyS_some_ne hrbne, firstTruthy, jsShow]
  · intro env bcO aid a1 a2 ga A B h1 h2 hplus hsplit hA hB hmiss hga hgane hgb
    unfold resolveFirstImage
    have hand : (truthyS B.imagemDireita && truthyS A.imagemEsquerda) = false := by
      cases hmiss with
      | inl h => simp [h]
      | inr h => simp [h]
    simp [h1, h2, hplus, hsplit, hA, hB, hand, hga, hgb,
      truthyS_some_ne hgane, jsShow]
  · intro env br msg aid conv bcO world hv hi hj hc hfound
    have h := processTagged_single_image env br msg aid conv bcO world hv hi hj hc hfound
    exact ⟨h.1, h.2.2⟩

/-- C7 witness fixture: environment whose compositing succeeds. -/
def envC7ok : Env := { envC7 with overlayOk := true }

/-- C7 witness fixture: environment whose overlay call throws. -/
def envC7throws : Env := { envC7 with overlayThrows := true }

/-- C7 witness fixture: item B with only a general asset. -/
def itemB2 : CardItem :=
  { nome := lit "Pizza Dolce Banana", imagemGeral := some (lit "gen-b") }

/-- C7 witness fixture: lookup mapping "idb" to the half-less item. -/
def findC7b : Str → Option CardItem := fun s =>
  if s = lit "ida" then some itemA else if s = lit "idb" then some itemB2 else none

/-- C7 witness fixture: environment for the missing-half fallback. -/
def envC7miss : Env := { baseEnv with findItem := findC7b }

/-- C7 witness: the four conjuncts of the composite-resolution theorem
at the concrete ida+idb scenario. -/
theorem C7_composite_image_resolution_witness :
    (resolveFirstImage envC7ok none (lit "ida+idb") =
       (some (ImageVal.composite (lit "right-b") (lit "left-a")),
        some (mkMeioCaption itemA itemB)) ∧
     resolveFirstImage envC7 none (lit "ida+idb") =
       (some (ImageVal.url (lit "right-b")), some (mkMeioCaption itemA itemB))) ∧
    (resolveFirstImage envC7throws none (lit "ida+idb") =
       (some (ImageVal.url (lit "left-a")),
        some (mkMeioCaption itemA itemB ++ lit " (visualização parcial)"))) ∧
    (resolveFirstImage envC7miss none (lit "ida+idb") =
       (some (ImageVal.url (lit "gen-a")),
        some (mkMeioCaption itemA itemB2 ++ lit " (visualização aproximada)"))) ∧
    ((processTaggedResponse envC7ok (lit "[IMAGE_FORMAT]ida+idb[/END]") (lit "x")
        { telefone := lit "551", state := 1 } none {}).resp.image =
       (resolveFirstImage envC7ok none (trimStr (lit "ida+idb"))).1 ∧
     (processTaggedResponse envC7ok (lit "[IMAGE_FORMAT]ida+idb[/END]") (lit "x")
        { telefone := lit "551", state := 1 } none {}).resp.success = true) := by
  refine ⟨⟨?_, ?_⟩, ?_, ?_, ?_⟩
  · exact (C7_composite_image_resolution.1 envC7ok none (lit "ida+idb") (lit "ida")
      (lit "idb") (lit "right-b") (lit "left-a") itemA itemB
      (by decide) (by decide) (by decide) (by decide) (by decide) (by decide)
      (by decide) (by decide) (by decide) (by decide) (by decide)).1 (by decide)
  · exact (C7_composite_image_resolution.1 envC7 none (lit "ida+idb") (lit "ida")
      (lit "idb") (lit "right-b") (lit "left-a") itemA itemB
      (by decide) (by decide) (by decide) (by decide) (by decide) (by decide)
      (by decide) (by decide) (by decide) (by decide) (by decide)).2 (by decide)
  · exact C7_composite_image_resolution.2.1 envC7throws none (lit "ida+idb") (lit "ida")
      (lit "idb") (lit "right-b") (lit "left-a") itemA itemB
      (by decide) (by decide) (by decide) (by decide) (by decide) (by decide)
      (by decide) (by decide) (by decide) (by decide) (by decide)
  · exact C7_composite_image_resolution.2.2.1 envC7miss none (lit "ida+idb") (lit "ida")
      (lit "idb") (lit "gen-a") itemA itemB2
      (by decide) (by decide) (by decide) (by decide) (by decide) (by decide)
      (Or.inl (by decide)) (by decide) (by decide) (by decide)
  · exact C7_composite_image_resolution.2.2.2 envC7ok
      (lit "[IMAGE_FORMAT]ida+idb[/END]") (lit "x") (lit "ida+idb")
      { telefone := lit "551", state := 1 } none {}
      (by decide) (by decide) (by decide) (by decide) (by decide)

theorem strContains_cons (c : Char) (rest pat : Str) :
    strContains (c :: rest) pat =
      (pat.isPrefixOf (c :: rest) || strContains rest pat) := by
  unfold strContains
  by_cases h : pat.isPrefixOf (c :: rest) = true
  · rw [show splitFirst (c :: rest) pat = some ([], (c :: rest).drop pat.length) by
      unfold splitFirst; rw [if_pos h]]
    simp [h]
  · rw [show splitFirst (c :: rest) pat =
        (splitFirst rest pat).map (fun p => (c :: p.1, p.2)) by
      conv_lhs => unfold splitFirst
      rw [if_neg (by simp [Bool.eq_false_iff.mpr h])]]
    rw [Bool.eq_false_iff.mpr h]
    simp [Option.isSome_map]

theorem splitFirst_none_of_not_contains {s pat : Str} (h : strContains s pat = false) :
    splitFirst s pat = none := by
  unfold strContains at h
  cases hs : splitFirst s pat with
  | none => rfl
  | some p => rw [hs] at h; simp at h

theorem extractBlock_none {t s : Str} (h : strContains s t = false) :
    extractBlock t s = none := by
  unfold extractBlock
  rw [splitFirst_none_of_not_contains h]

theorem extractAllBlocks_nil {t s : Str} (h : strContains s t = false) :
    extractAllBlocks t s = [] := by
  unfold extractAllBlocks
  cases hl : s.length with
  | zero => rfl
  | succ n =>
    unfold extractAllBlocksAux
    rw [splitFirst_none_of_not_contains h]

/-- Scanning lemma: a pattern is absent from `a ++ b` when it cannot
start at any position of `a` and is absent from `b`. -/
theorem strContains_append_false :
    ∀ (a b pat : Str),
      (∀ i, i < a.length → pat.isPrefixOf (a.drop i ++ b) = false) →
      strContains b pat = false →
      strContains (a ++ b) pat = false
  | [], b, pat, _, hb => by simpa using hb
  | c :: a', b, pat, h, hb => by
    rw [List.cons_append, strContains_cons]
    have h0 : pat.isPrefixOf (c :: (a' ++ b)) = false := by
      have := h 0 (by simp)
      simpa using this
    have hrest : strContains (a' ++ b) pat = false :=
      strContains_append_false a' b pat
        (fun i hi => by simpa using h (i + 1) (by simpa using Nat.succ_lt_succ hi)) hb
    simp [h0, hrest]

theorem splitFirst_self (pat r : Str) : splitFirst (pat ++ r) pat = some ([], r) := by
  unfold splitFirst
  rw [if_pos ((List.isPrefixOf_iff_prefix).mpr (List.prefix_append pat r))]
  rw [List.drop_left]

/-- No occurrence of a block tag can start inside the body `m` of a
wrapped reply `m ++ [/END]`: an occurrence fitting inside `m` would
contradict `m`'s tag-freeness, and a straddling occurrence would need a
tag character other than the leading bracket to start the closing
tag. -/
theorem no_straddle (pat m : Str) (hm : strContains m pat = false)
    (hhead : ∀ k, k < pat.length → 1 ≤ k → ((pat.drop k).isPrefixOf endTok) = false) :
    ∀ i, i < m.length → pat.isPrefixOf (m.drop i ++ endTok) = false := by
  intro i hi
  by_contra hcon
  have hpref : pat <+: (m.drop i ++ endTok) := by
    cases hp : pat.isPrefixOf (m.drop i ++ endTok) with
    | false => exact absurd hp hcon
    | true => exact (List.isPrefixOf_iff_prefix).mp hp
  by_cases hfit : pat.length ≤ (m.drop i).length
  · have hin : pat <+: m.drop i :=
      (List.isPrefix_append_of_length hfit).mp hpref
    obtain ⟨rest, hrest⟩ := hin
    have hms : m = m.take i ++ (pat ++ rest) := by
      rw [hrest, List.take_append_drop]
    have : strContains m pat = true := by
      rw [hms]
      exact strContains_mid (m.take i) pat rest
    rw [this] at hm
    exact absurd hm (by simp)
  · push_neg at hfit
    set k := (m.drop i).length with hk
    have hk1 : 1 ≤ k := by
      rw [hk, List.length_drop]; omega
    obtain ⟨t, ht⟩ := hpref
    have hdrop := congrArg (List.drop k) ht
    rw [List.drop_append_of_le_length (by omega)] at hdrop
    have hright : (m.drop i ++ endTok).drop k = endTok := by
      rw [hk]
      exact List.drop_left (m.drop i) endTok
    rw [hright] at hdrop
    have hpk : (pat.drop k).isPrefixOf endTok = true := by
      refine (List.isPrefixOf_iff_prefix).mpr ?_
      exact ⟨t, hdrop⟩
    have := hhead k (by omega) hk1
    rw [this] at hpk
    exact absurd hpk (by simp)

/-- Master lemma: a block tag is absent from the wrapped reply
`[TEXT_FORMAT] ++ m ++ [/END]` when it is absent from `m`. -/
theorem strContains_wrap_false (pat m : Str)
    (hm : strContains m pat = false)
    (hhead : ∀ k, k < pat.length → 1 ≤ k → ((pat.drop k).isPrefixOf endTok) = false)
    (hpre : ∀ i, i < textOpenTok.length →
      pat.isPrefixOf (textOpenTok.drop i ++ (m ++ endTok)) = false)
    (hend : strContains endTok pat = false) :
    strContains (textOpenTok ++ (m ++ endTok)) pat = false := by
  apply strContains_append_false textOpenTok (m ++ endTok) pat hpre
  exact strContains_append_false m endTok pat (no_straddle pat m hm hhead) hend

theorem wrap_no_voice (m : Str) (hm : strContains m voiceOpenTok = false) :
    strContains (textOpenTok ++ (m ++ endTok)) voiceOpenTok = false := by
  apply strContains_wrap_false _ _ hm
  · decide
  · intro i hi
    rw [show textOpenTok.length = 13 from rfl] at hi
    interval_cases i <;> rfl
  · decide

theorem wrap_no_image (m : Str) (hm : strContains m imageOpenTok = false) :
    strContains (textOpenTok ++ (m ++ endTok)) imageOpenTok = false := by
  apply strContains_wrap_false _ _ hm
  · decide
  · intro i hi
    rw [show textOpenTok.length = 13 from rfl] at hi
    interval_cases i <;> rfl
  · decide

theorem wrap_no_json (m : Str) (hm : strContains m jsonOpenTok = false) :
    strContains (textOpenTok ++ (m ++ endTok)) jsonOpenTok = false := by
  apply strContains_wrap_false _ _ hm
  · decide
  · intro i hi
    rw [show textOpenTok.length = 13 from rfl] at hi
    interval_cases i <;> rfl
  · decide

theorem wrap_no_conf (m : Str) (hm : strContains m confOpenTok = false) :
    strContains (textOpenTok ++ (m ++ endTok)) confOpenTok = false := by
  apply strContains_wrap_false _ _ hm
  · decide
  · intro i hi
    rw [show textOpenTok.length = 13 from rfl] at hi
    interval_cases i <;> rfl
  · decide

/-- A reply wrapped as a TEXT block by the repair policy carries no
voice, image, JSON or confirmation block, so the tagged-response
processor passes it through verbatim: the whole wrapped string is the
text, the echoed state is the current one, and nothing else happens. -/
theorem processTagged_wrapped (env : Env) (m msg : Str) (conv : Conversa)
    (bcO : Option BotConfig) (world : World)
    (hv : strContains m voiceOpenTok = false)
    (hi : strContains m imageOpenTok = false)
    (hj : strContains m jsonOpenTok = false)
    (hc : strContains m confOpenTok = false) :
    processTaggedResponse env (textOpenTok ++ m ++ endTok) msg conv bcO world =
      ⟨{ success := true, state := some conv.state,
         text := some (textOpenTok ++ m ++ endTok) }, conv, world⟩ := by
  rw [List.append_assoc]
  have hv' : extractBlock voiceOpenTok (textOpenTok ++ (m ++ endTok)) = none :=
    extractBlock_none (wrap_no_voice m hv)
  have hi' : extractAllBlocks imageOpenTok (textOpenTok ++ (m ++ endTok)) = [] :=
    extractAllBlocks_nil (wrap_no_image m hi)
  have hj' : extractBlock jsonOpenTok (textOpenTok ++ (m ++ endTok)) = none :=
    extractBlock_none (wrap_no_json m hj)
  have hc' : extractBlock confOpenTok (textOpenTok ++ (m ++ endTok)) = none :=
    extractBlock_none (wrap_no_conf m hc)
  have hne : (textOpenTok ++ (m ++ endTok)).isEmpty = false := rfl
  unfold processTaggedResponse voiceStep imageStep jsonStep confirmationStep finalStep
  simp only [hv', hi', hj', hc']
  simp [truthyS, hne]

/-- Routing: away from the state-4/5/6 interceptions and with no image
request or CEP detected, a turn reaches the model phase with the user
message appended to the history (`src/index.js:2165-2541`). -/
theorem pmi_to_model (env : Env) (phone msg : Str) (conv : Conversa) (world : World)
    (hph : phone.isEmpty = false) (hr : isResetMsg msg = false)
    (hcep : cepDetect msg = false)
    (h4 : conv.state ≠ 4) (h5 : conv.state ≠ 5) (h6 : conv.state ≠ 6)
    (himg : detectImageRequest msg = none) :
    processMessageInternally env phone msg false conv world =
      modelPhase env msg
        { conv with mensagens := conv.mensagens ++ [⟨Role.user, msg⟩] } world := by
  unfold processMessageInternally imageRequestIntercept
  rw [himg]
  simp [hph, hr, hcep, h4, h5, h6, Option.orElse]

/-- Model phase on a fully tag-free model output: the output is wrapped
as a TEXT block and delivered verbatim with success, and the stores are
untouched (`src/index.js:2541-2892`). -/
theorem modelPhase_wrapped (env : Env) (msg : Str) (conv : Conversa) (world : World)
    (m : Str)
    (hm : env.model = some m)
    (ht : strContains m textOpenTok = false)
    (hv : strContains m voiceOpenTok = false)
    (hi : strContains m imageOpenTok = false)
    (hj : strContains m jsonOpenTok = false)
    (hc : strContains m confOpenTok = false)
    (hreq : requestToks.any (fun t => strContains m t) = false) :
    (modelPhase env msg conv world).resp.text = some (textOpenTok ++ m ++ endTok) ∧
    (modelPhase env msg conv world).resp.success = true ∧
    (modelPhase env msg conv world).world = world := by
  have hepd : extractPedidoData env m = none := by
    unfold extractPedidoData
    rw [extractBlock_none hj]
  have hsj : ∀ c w, stageJsonBlock env m c w = (c, w) := by
    intro c w
    unfold stageJsonBlock
    rw [hj]
    rfl
  have henr : enrichStep env m = m := by
    unfold enrichStep
    rw [hreq]
    rfl
  have hlt : lacksTagFormat m = true := by
    unfold lacksTagFormat
    rw [ht, hv, hi, hj]
    rfl
  unfold modelPhase
  rw [hm]
  simp only [Option.getD_some, hepd, hsj, henr, hlt, if_true]
  rw [processTagged_wrapped env m msg _ _ _ hv hi hj hc]
  exact ⟨rfl, rfl, rfl⟩

/-- C8: Repair policy (amended).  For every model output that contains
none of the five recognized opening tags — the four named by the claim
plus `[CONFIRMATION_FORMAT]`, which the repair check at
`src/index.js:2798-2802` omits — and no `[REQUEST_*]` marker, a turn
that reaches the model phase wraps the entire output as an implicit
TEXT block and delivers it verbatim with success, leaving the stores
untouched: the missing tag is repaired, never surfaced as an error.
The confirmation carve-out is forced by `C8_counterexample`: an output
whose only block is a `[CONFIRMATION_FORMAT]` block contains none of
the four tags the claim names, yet is not delivered as an implicit
TEXT block. -/
theorem C8_repair_policy (env : Env) (phone msg : Str) (conv : Conversa)
    (world : World) (m : Str)
    (hph : phone.isEmpty = false) (hr : isResetMsg msg = false)
    (hcep : cepDetect msg = false)
    (h4 : conv.state ≠ 4) (h5 : conv.state ≠ 5) (h6 : conv.state ≠ 6)
    (himg : detectImageRequest msg = none)
    (hm : env.model = some m)
    (ht : strContains m textOpenTok = false)
    (hv : strContains m voiceOpenTok = false)
    (hi : strContains m imageOpenTok = false)
    (hj : strContains m jsonOpenTok = false)
    (hc : strContains m confOpenTok = false)
    (hreq : requestToks.any (fun t => strContains m t) = false) :
    (processMessageInternally env phone msg false conv world).resp.text =
      some (textOpenTok ++ m ++ endTok) ∧
    (processMessageInternally env phone msg false conv world).resp.success = true ∧
    (processMessageInternally env phone msg false conv world).world = world := by
  rw [pmi_to_model env phone msg conv world hph hr hcep h4 h5 h6 himg]
  exact modelPhase_wrapped env msg _ world m hm ht hv hi hj hc hreq

/-- C8 witness environment: the model answers with a completely untagged
sentence. -/
def envC8ok : Env :=
  { baseEnv with model := some (lit "Claro, posso ajudar com o seu pedido.") }

/-- C8 witness: on a state-2 conversation the untagged model output is
delivered wrapped as a TEXT block, with success and untouched stores. -/
theorem C8_repair_policy_witness :
    (processMessageInternally envC8ok (lit "551") (lit "aguarde") false
        { telefone := lit "551", state := 2 } {}).resp.text =
      some (textOpenTok ++ lit "Claro, posso ajudar com o seu pedido." ++ endTok) ∧
    (processMessageInternally envC8ok (lit "551") (lit "aguarde") false
        { telefone := lit "551", state := 2 } {}).resp.success = true ∧
    (processMessageInternally envC8ok (lit "551") (lit "aguarde") false
        { telefone := lit "551", state := 2 } {}).world = {} :=
  C8_repair_policy envC8ok (lit "551") (lit "aguarde")
    { telefone := lit "551", state := 2 } {} (lit "Claro, posso ajudar com o seu pedido.")
    (by decide) (by decide) (by decide) (by decide) (by decide) (by decide)
    (by decide) (by decide) (by decide) (by decide) (by decide) (by decide)
    (by decide) (by decide)

/-- Family of model outputs made of one kind of tagged block: each
`(gap, payload)` pair contributes `gap ++ tag ++ payload ++ [/END]`,
followed by a trailing `tail`. -/
def blockDoc (tag : Str) : List (Str × Str) → Str → Str
  | [], tail => tail
  | (gap, payload) :: rest, tail =>
    gap ++ (tag ++ (payload ++ (endTok ++ blockDoc tag rest tail)))

theorem splitFirst_no_open (c0 : Char) (pt : Str) :
    ∀ s : Str, (∀ c ∈ s, c ≠ c0) → splitFirst s (c0 :: pt) = none
  | [], _ => by
    unfold splitFirst
    rw [if_neg (by simp [List.isPrefixOf])]
  | c :: s', h => by
    have hc : (c0 == c) = false := by
      simp
      exact fun he => absurd he.symm (h c (by simp))
    have hpref : (c0 :: pt).isPrefixOf (c :: s') = false := by
      simp [List.isPrefixOf, hc]
    rw [show splitFirst (c :: s') (c0 :: pt) =
        (splitFirst s' (c0 :: pt)).map (fun p => (c :: p.1, p.2)) from by
      conv_lhs => unfold splitFirst
      rw [if_neg (by simp only [hpref]; exact Bool.false_ne_true)]]
    rw [splitFirst_no_open c0 pt s' (fun x hx => h x (by simp [hx]))]
    rfl

/-- The leftmost match of a pattern opening with `c0` sits exactly at
the first position where `c0` occurs followed by the rest of the
pattern. -/
theorem splitFirst_append_no_open (c0 : Char) (pt r : Str) :
    ∀ a : Str, (∀ c ∈ a, c ≠ c0) →
      splitFirst (a ++ ((c0 :: pt) ++ r)) (c0 :: pt) = some (a, r)
  | [], _ => by simpa using splitFirst_self (c0 :: pt) r
  | c :: a', h => by
    have hc : (c0 == c) = false := by
      simp
      exact fun he => absurd he.symm (h c (by simp))
    rw [List.cons_append]
    have hpref : (c0 :: pt).isPrefixOf (c :: (a' ++ ((c0 :: pt) ++ r))) = false := by
      simp [List.isPrefixOf, hc]
    rw [show splitFirst (c :: (a' ++ ((c0 :: pt) ++ r))) (c0 :: pt) =
        (splitFirst (a' ++ ((c0 :: pt) ++ r)) (c0 :: pt)).map (fun p => (c :: p.1, p.2)) from by
      conv_lhs => unfold splitFirst
      rw [if_neg (by simp only [hpref]; exact Bool.false_ne_true)]]
    rw [splitFirst_append_no_open c0 pt r a' (fun x hx => h x (by simp [hx]))]
    rfl

/-- `extractBlock` returns the payload of the first block, whatever
follows its closing tag. -/
theorem extractBlock_first (c0 : Char) (pt gap p rest : Str)
    (hgap : ∀ c ∈ gap, c ≠ c0) (hp : ∀ c ∈ p, c ≠ '[') :
    extractBlock (c0 :: pt) (gap ++ ((c0 :: pt) ++ (p ++ (endTok ++ rest)))) = some p := by
  have he : endTok = '[' :: lit "/END]" := rfl
  have hsplit2 : splitFirst (p ++ (endTok ++ rest)) endTok = some (p, rest) := by
    rw [he]
    exact splitFirst_append_no_open '[' (lit "/END]") rest p hp
  unfold extractBlock
  rw [splitFirst_append_no_open c0 pt _ gap hgap]
  dsimp only
  rw [hsplit2]

theorem blockDoc_length_ge (tag : Str) :
    ∀ (ps : List (Str × Str)) (tail : Str),
      ps.length ≤ (blockDoc tag ps tail).length
  | [], tail => by simp [blockDoc]
  | (gap, payload) :: rest, tail => by
    have ih := blockDoc_length_ge tag rest tail
    have h6 : endTok.length = 6 := rfl
    simp only [blockDoc, List.length_append, List.length_cons]
    omega

/-- The fuelled scanner collects exactly the payloads of a block
document, in document order. -/
theorem extractAllBlocksAux_doc (c0 : Char) (pt : Str) :
    ∀ (ps : List (Str × Str)) (tail : Str) (fuel : Nat),
      ps.length ≤ fuel →
      (∀ q ∈ ps, (∀ c ∈ q.1, c ≠ c0) ∧ (∀ c ∈ q.2, c ≠ '[') ∧
        (trimStr q.2).isEmpty = false) →
      (∀ c ∈ tail, c ≠ c0) →
      extractAllBlocksAux (c0 :: pt) fuel (blockDoc (c0 :: pt) ps tail) =
        ps.map (fun q => trimStr q.2)
  | [], tail, fuel, _, _, htail => by
    cases fuel with
    | zero => rfl
    | succ f =>
      show extractAllBlocksAux (c0 :: pt) (f + 1) tail = []
      unfold extractAllBlocksAux
      rw [splitFirst_no_open c0 pt tail htail]
  | (gap, payload) :: rest, tail, fuel, hfuel, hps, htail => by
    cases fuel with
    | zero => simp at hfuel
    | succ f =>
      have he : endTok = '[' :: lit "/END]" := rfl
      have h1 : splitFirst (blockDoc (c0 :: pt) ((gap, payload) :: rest) tail) (c0 :: pt)
          = some (gap, payload ++ (endTok ++ blockDoc (c0 :: pt) rest tail)) := by
        show splitFirst
          (gap ++ ((c0 :: pt) ++ (payload ++ (endTok ++ blockDoc (c0 :: pt) rest tail))))
          (c0 :: pt) = _
        exact splitFirst_append_no_open c0 pt _ gap (hps (gap, payload) (by simp)).1
      have h2 : splitFirst (payload ++ (endTok ++ blockDoc (c0 :: pt) rest tail)) endTok
          = some (payload, blockDoc (c0 :: pt) rest tail) := by
        rw [he]
        exact splitFirst_append_no_open '[' (lit "/END]") _ payload
          (hps (gap, payload) (by simp)).2.1
      have hne : (trimStr payload).isEmpty = false := (hps (gap, payload) (by simp)).2.2
      show extractAllBlocksAux (c0 :: pt) (f + 1) _ = _
      unfold extractAllBlocksAux
      rw [h1]
      dsimp only
      rw [h2]
      dsimp only
      rw [if_neg (by simp only [hne]; exact Bool.false_ne_true)]
      rw [extractAllBlocksAux_doc c0 pt rest tail f (by simp at hfuel; omega)
        (fun q hq => hps q (by simp [hq])) htail]
      rfl

theorem extractAllBlocks_doc (c0 : Char) (pt : Str) (ps : List (Str × Str)) (tail : Str)
    (hps : ∀ q ∈ ps, (∀ c ∈ q.1, c ≠ c0) ∧ (∀ c ∈ q.2, c ≠ '[') ∧
      (trimStr q.2).isEmpty = false)
    (htail : ∀ c ∈ tail, c ≠ c0) :
    extractAllBlocks (c0 :: pt) (blockDoc (c0 :: pt) ps tail) =
      ps.map (fun q => trimStr q.2) :=
  extractAllBlocksAux_doc c0 pt ps tail _ (blockDoc_length_ge (c0 :: pt) ps tail) hps htail

/-- C10: of the `[VOICE_FORMAT]`, `[JSON_FORMAT]` and
`[CONFIRMATION_FORMAT]` blocks of a model output only the first one is
consulted — `voiceStep`, `jsonStep` and `confirmationStep` each read
exactly `extractBlock` of their tag, which here returns the first
payload `p` whatever repeated blocks follow in `rest` and `tail` —
while `imageStep` reads `extractAllBlocks imageOpenTok`, which collects
every image payload in document order (trimmed, whitespace-only ones
dropped; here all payloads are assumed non-blank).  Gaps and payloads
are assumed free of the bracket character that opens every tag. -/
theorem C10_first_block_selection (gap p tail tailI : Str)
    (rest ps : List (Str × Str))
    (hgap : ∀ c ∈ gap, c ≠ '[') (hp : ∀ c ∈ p, c ≠ '[')
    (hps : ∀ q ∈ ps, (∀ c ∈ q.1, c ≠ '[') ∧ (∀ c ∈ q.2, c ≠ '[') ∧
      (trimStr q.2).isEmpty = false)
    (htailI : ∀ c ∈ tailI, c ≠ '[') :
    extractBlock voiceOpenTok (blockDoc voiceOpenTok ((gap, p) :: rest) tail) = some p ∧
    extractBlock jsonOpenTok (blockDoc jsonOpenTok ((gap, p) :: rest) tail) = some p ∧
    extractBlock confOpenTok (blockDoc confOpenTok ((gap, p) :: rest) tail) = some p ∧
    extractAllBlocks imageOpenTok (blockDoc imageOpenTok ps tailI) =
      ps.map (fun q => trimStr q.2) := by
  refine ⟨?_, ?_, ?_, ?_⟩
  · show extractBlock ('[' :: lit "VOICE_FORMAT]")
      (gap ++ (('[' :: lit "VOICE_FORMAT]") ++
        (p ++ (endTok ++ blockDoc voiceOpenTok rest tail)))) = some p
    exact extractBlock_first '[' (lit "VOICE_FORMAT]") gap p _ hgap hp
  · show extractBlock ('[' :: lit "JSON_FORMAT]")
      (gap ++ (('[' :: lit "JSON_FORMAT]") ++
        (p ++ (endTok ++ blockDoc jsonOpenTok rest tail)))) = some p
    exact extractBlock_first '[' (lit "JSON_FORMAT]") gap p _ hgap hp
  · show extractBlock ('[' :: lit "CONFIRMATION_FORMAT]")
      (gap ++ (('[' :: lit "CONFIRMATION_FORMAT]") ++
        (p ++ (endTok ++ blockDoc confOpenTok rest tail)))) = some p
    exact extractBlock_first '[' (lit "CONFIRMATION_FORMAT]") gap p _ hgap hp
  · show extractAllBlocks ('[' :: lit "IMAGE_FORMAT]")
      (blockDoc ('[' :: lit "IMAGE_FORMAT]") ps tailI) = ps.map (fun q => trimStr q.2)
    exact extractAllBlocks_doc '[' (lit "IMAGE_FORMAT]") ps tailI hps htailI

/-- C10 witness: with two voice/json/confirmation blocks only the first
payload is extracted; two image blocks are both collected in document
order. -/
theorem C10_first_block_selection_witness :
    extractBlock voiceOpenTok
      (blockDoc voiceOpenTok
        [(lit "ola ", lit "fala1"), (lit " e ", lit "fala2")] (lit "fim")) =
      some (lit "fala1") ∧
    extractBlock jsonOpenTok
      (blockDoc jsonOpenTok
        [(lit "ola ", lit "fala1"), (lit " e ", lit "fala2")] (lit "fim")) =
      some (lit "fala1") ∧
    extractBlock confOpenTok
      (blockDoc confOpenTok
        [(lit "ola ", lit "fala1"), (lit " e ", lit "fala2")] (lit "fim")) =
      some (lit "fala1") ∧
    extractAllBlocks imageOpenTok
      (blockDoc imageOpenTok
        [(lit "a ", lit " x1 "), (lit " b ", lit "x2")] (lit "tchau")) =
      ([(lit "a ", lit " x1 "), (lit " b ", lit "x2")] : List (Str × Str)).map
        (fun q => trimStr q.2) :=
  C10_first_block_selection (lit "ola ") (lit "fala1") (lit "fim") (lit "tchau")
    [(lit " e ", lit "fala2")]
    [(lit "a ", lit " x1 "), (lit " b ", lit "x2")]
    (by decide) (by decide) (by decide) (by decide)

/-! ## State-machine lemmas (C4) -/

theorem jsonStep_conversa_state (env : Env) (br : Str) (conv : Conversa) (world : World)
    (resp : ResponseObj) :
    (jsonStep env br conv world resp).elim
      (fun o => o.conversa.state = 4)
      (fun t => t.2.1.state = conv.state ∨ t.2.1.state = 6) := by
  unfold jsonStep
  repeat' split
  all_goals simp
  all_goals repeat' split
  all_goals simp

theorem elim_of_elim_false {α β : Type _} {P : α → Prop} {Q : β → Prop} :
    ∀ (x : α ⊕ β), Sum.elim (fun _ => False) Q x → Sum.elim P Q x
  | Sum.inl _, h => h.elim
  | Sum.inr _, h => h

theorem commitPedido_conversa_state (conv : Conversa) (bcO : Option BotConfig)
    (world : World) (resp : ResponseObj) (pd : PedidoData) (confText : Str) :
    (commitPedido conv bcO world resp pd confText).elim
      (fun _ => False)
      (fun t => t.2.1.state = conv.state ∨ t.2.1.state = 7) := by
  unfold commitPedido
  split <;> simp

theorem confirmationStep_conversa_state (br : Str) (conv : Conversa)
    (bcO : Option BotConfig) (world : World) (resp : ResponseObj) :
    (confirmationStep br conv bcO world resp).elim
      (fun o => o.conversa.state = conv.state ∨ o.conversa.state = 4)
      (fun t => t.2.1.state = conv.state ∨ t.2.1.state = 7) := by
  unfold confirmationStep
  split
  · simp
  · split
    · simp
    · split
      · simp
      · split
        · exact elim_of_elim_false _ (commitPedido_conversa_state conv bcO world resp _ _)
        · split
          · split
            · exact elim_of_elim_false _ (commitPedido_conversa_state conv bcO world resp _ _)
            · simp
          · simp

theorem processTagged_conversa_state (env : Env) (br msg : Str) (conv : Conversa)
    (bcO : Option BotConfig) (world : World) :
    (processTaggedResponse env br msg conv bcO world).conversa.state = conv.state ∨
    (processTaggedResponse env br msg conv bcO world).conversa.state = 4 ∨
    (processTaggedResponse env br msg conv bcO world).conversa.state = 6 ∨
    (processTaggedResponse env br msg conv bcO world).conversa.state = 7 := by
  unfold processTaggedResponse
  have hjs := jsonStep_conversa_state env br conv world
    (imageStep env br conv bcO
      (voiceStep env br conv { success := true, state := some conv.state, text := some br }))
  rcases hres : jsonStep env br conv world
      (imageStep env br conv bcO
        (voiceStep env br conv
          { success := true, state := some conv.state, text := some br })) with o | ⟨r, c, w⟩
  · rw [hres] at hjs
    simp only [Sum.elim_inl] at hjs
    simp only [hres]
    simp [hjs]
  · rw [hres] at hjs
    simp only [Sum.elim_inr] at hjs
    simp only [hres]
    have hcs := confirmationStep_conversa_state br c bcO w r
    rcases hres2 : confirmationStep br c bcO w r with o2 | ⟨r2, c2, w2⟩
    · rw [hres2] at hcs
      simp only [Sum.elim_inl] at hcs
      simp only [hres2]
      rcases hjs with h | h <;> rcases hcs with h2 | h2 <;> omega
    · rw [hres2] at hcs
      simp only [Sum.elim_inr] at hcs
      simp only [hres2]
      rcases hjs with h | h <;> rcases hcs with h2 | h2 <;> omega

theorem processTagged_state_of7 (env : Env) (br msg : Str) (c : Conversa)
    (bcO : Option BotConfig) (world : World) (h7 : c.state = 7) :
    (processTaggedResponse env br msg c bcO world).conversa.state = 4 ∨
    (processTaggedResponse env br msg c bcO world).conversa.state = 6 ∨
    (processTaggedResponse env br msg c bcO world).conversa.state = 7 := by
  have h := processTagged_conversa_state env br msg c bcO world
  rw [h7] at h
  tauto

theorem stageJsonBlock_conversa_state (env : Env) (br : Str) (conv : Conversa)
    (world : World) :
    (stageJsonBlock env br conv world).1.state = conv.state ∨
    (stageJsonBlock env br conv world).1.state = 6 := by
  unfold stageJsonBlock
  repeat' split
  all_goals simp

theorem state4NumberSplice_state (conv : Conversa) (msg : Str)
    (p : ResponseObj × Conversa) (h : state4NumberSplice conv msg = some p) :
    p.2.state = 5 := by
  unfold state4NumberSplice at h
  dsimp only at h
  split at h
  · split at h
    · exact Option.noConfusion h
    · split at h
      · exact Option.noConfusion h
      · split at h
        · cases h; rfl
        · exact Option.noConfusion h
  · exact Option.noConfusion h

theorem state5Intercept_state (conv : Conversa) (msg : Str)
    (p : ResponseObj × Conversa) (h : state5Intercept conv msg = some p) :
    p.2.state = conv.state := by
  unfold state5Intercept at h
  split at h
  · exact Option.noConfusion h
  · dsimp only at h
    split at h
    · cases h; rfl
    · split at h
      · cases h; rfl
      · exact Option.noConfusion h

theorem direct6Commit_conversa_state (env : Env) (conv : Conversa) (world : World)
    (msg : Str) :
    (direct6Commit env conv world msg).conversa.state = conv.state ∨
    (direct6Commit env conv world msg).conversa.state = 4 ∨
    (direct6Commit env conv world msg).conversa.state = 6 ∨
    (direct6Commit env conv world msg).conversa.state = 7 := by
  unfold direct6Commit
  repeat' split
  all_goals try simp
  all_goals exact Or.inr (processTagged_state_of7 env _ msg _ none _ rfl)

theorem imageRequestIntercept_state (env : Env) (conv : Conversa) (world : World)
    (msg : Str) (out : TurnOut) (h : imageRequestIntercept env conv world msg = some out) :
    out.conversa.state = conv.state ∨ out.conversa.state = 4 ∨
    out.conversa.state = 6 ∨ out.conversa.state = 7 := by
  unfold imageRequestIntercept at h
  split at h
  · exact Option.noConfusion h
  · exact Option.noConfusion h
  · cases h
    exact processTagged_conversa_state env _ msg _ env.botConfig world

/-- The pre-staging conversation update of the model phase
(`src/index.js:2680-2688`), factored out of `modelPhase`. -/
def modelPhaseC1 (env : Env) (conv : Conversa) : Conversa :=
  match env.model with
  | some r =>
    match extractPedidoData env r with
    | some pd =>
      { conv with pedidoData := some pd, lastJsonData := extractBlock jsonOpenTok r }
    | none => conv
  | none => conv

/-- The tail of the model phase after the model reply and the
`extractPedidoData` pass, factored out of `modelPhase`. -/
def modelPhaseTail (env : Env) (message br0 : Str) (c1 : Conversa) (world : World) :
    TurnOut :=
  let (conversa, world) := stageJsonBlock env br0 c1 world
  let botResponse1 := enrichStep env br0
  let botResponse :=
    if lacksTagFormat botResponse1 then textOpenTok ++ botResponse1 ++ endTok
    else botResponse1
  let conversa := { conversa with mensagens := conversa.mensagens ++ [⟨Role.bot, botResponse⟩] }
  let shouldAdvanceState := checkIfShouldAdvanceState botResponse message conversa.state conversa
  let s0 := conversa.state
  let conversa :=
    if shouldAdvanceState && s0 < 7 then { conversa with state := s0 + 1 } else conversa
  let alert7 := (!(shouldAdvanceState && s0 < 7)) && s0 = 7 && conversa.pedidoId.isNone
  let pt := processTaggedResponse env botResponse message conversa env.botConfig world
  { resp := pt.resp, conversa := pt.conversa, world := pt.world,
    usedModel := true, alert7 := alert7 }

theorem modelPhase_eq_tail (env : Env) (msg : Str) (conv : Conversa) (world : World) :
    modelPhase env msg conv world =
      modelPhaseTail env msg
        (env.model.getD
          (textOpenTok ++ lit "Desculpe, estou enfrentando alguns problemas técnicos no momento. Poderia tentar novamente em instantes?" ++ endTok))
        (modelPhaseC1 env conv) world := by
  unfold modelPhase modelPhaseTail modelPhaseC1
  rfl

theorem modelPhaseTail_conversa_state (env : Env) (msg br0 : Str) (c1 : Conversa)
    (world : World) :
    (modelPhaseTail env msg br0 c1 world).conversa.state = c1.state ∨
    (modelPhaseTail env msg br0 c1 world).conversa.state = 4 ∨
    (modelPhaseTail env msg br0 c1 world).conversa.state = 6 ∨
    (modelPhaseTail env msg br0 c1 world).conversa.state = 7 ∨
    (c1.state < 7 ∧
      (modelPhaseTail env msg br0 c1 world).conversa.state = c1.state + 1) := by
  unfold modelPhaseTail
  rcases hsp : stageJsonBlock env br0 c1 world with ⟨c2, w2⟩
  have hst := stageJsonBlock_conversa_state env br0 c1 world
  rw [hsp] at hst
  dsimp only at hst
  simp only [hsp]
  dsimp only
  split
  · generalize hbr : textOpenTok ++ enrichStep env br0 ++ endTok = br
    split
    · rename_i hadv
      simp only [Bool.and_eq_true, decide_eq_true_eq] at hadv
      have hpt := processTagged_conversa_state env br msg
        { c2 with
          state := c2.state + 1
          mensagens := c2.mensagens ++ [⟨Role.bot, br⟩] } env.botConfig w2
      dsimp only at hpt
      have hlt : c2.state < 7 := hadv.2
      rcases hst with h2 | h2 <;> rcases hpt with h | h | h | h <;> omega
    · have hpt := processTagged_conversa_state env br msg
        { c2 with mensagens := c2.mensagens ++ [⟨Role.bot, br⟩] } env.botConfig w2
      dsimp only at hpt
      rcases hst with h2 | h2 <;> rcases hpt with h | h | h | h <;> omega
  · generalize hbr : enrichStep env br0 = br
    split
    · rename_i hadv
      simp only [Bool.and_eq_true, decide_eq_true_eq] at hadv
      have hpt := processTagged_conversa_state env br msg
        { c2 with
          state := c2.state + 1
          mensagens := c2.mensagens ++ [⟨Role.bot, br⟩] } env.botConfig w2
      dsimp only at hpt
      have hlt : c2.state < 7 := hadv.2
      rcases hst with h2 | h2 <;> rcases hpt with h | h | h | h <;> omega
    · have hpt := processTagged_conversa_state env br msg
        { c2 with mensagens := c2.mensagens ++ [⟨Role.bot, br⟩] } env.botConfig w2
      dsimp only at hpt
      rcases hst with h2 | h2 <;> rcases hpt with h | h | h | h <;> omega

/-- The CEP pre-pass of a turn (`src/index.js:2186-2215`), factored out
of `processMessageInternally`. -/
def pmiCep (env : Env) (message : Str) (conversa : Conversa) : Conversa :=
  if cepDetect message then
    match env.cepLookup message with
    | some ad => { conversa with addressData := some ad }
    | none => conversa
  else conversa

/-- The interception-or-model routing of a turn
(`src/index.js:2218-2541`), factored out of `processMessageInternally`. -/
def routeIntercept (env : Env) (message : Str) (conversa : Conversa) (world : World) :
    TurnOut :=
  let intercepted : Option TurnOut :=
    (if conversa.state = 4 then
      (state4NumberSplice conversa message).map
        (fun p => { resp := p.1, conversa := p.2, world := world })
     else none).orElse fun _ =>
    (if conversa.state = 5 then
      (state5Intercept conversa message).map
        (fun p => { resp := p.1, conversa := p.2, world := world })
     else none).orElse fun _ =>
    (if conversa.state = 6 && affirmative6 message then
      some (direct6Commit env conversa world message)
     else none).orElse fun _ =>
    imageRequestIntercept env conversa world message
  match intercepted with
  | some out => out
  | none => modelPhase env message conversa world

theorem pmi_eq_route (env : Env) (phone msg : Str) (isAudio : Bool) (conv : Conversa)
    (world : World) (hph : phone.isEmpty = false) (hr : isResetMsg msg = false) :
    processMessageInternally env phone msg isAudio conv world =
      routeIntercept env msg
        { pmiCep env msg conv with
          mensagens := (pmiCep env msg conv).mensagens ++
            [⟨Role.user, if isAudio then lit "[Áudio]: " ++ msg else msg⟩] } world := by
  unfold processMessageInternally routeIntercept pmiCep
  rw [if_neg (by simp only [hph]; exact Bool.false_ne_true)]
  rw [if_neg (by simp only [hr]; exact Bool.false_ne_true)]

theorem pmiCep_state (env : Env) (msg : Str) (conv : Conversa) :
    (pmiCep env msg conv).state = conv.state := by
  unfold pmiCep
  repeat' split
  all_goals rfl

theorem modelPhaseC1_state (env : Env) (conv : Conversa) :
    (modelPhaseC1 env conv).state = conv.state := by
  unfold modelPhaseC1
  repeat' split
  all_goals rfl

theorem modelPhase_conversa_state (env : Env) (msg : Str) (conv : Conversa)
    (world : World) :
    (modelPhase env msg conv world).conversa.state = conv.state ∨
    (modelPhase env msg conv world).conversa.state = 4 ∨
    (modelPhase env msg conv world).conversa.state = 6 ∨
    (modelPhase env msg conv world).conversa.state = 7 ∨
    (conv.state < 7 ∧
      (modelPhase env msg conv world).conversa.state = conv.state + 1) := by
  rw [modelPhase_eq_tail]
  have h := modelPhaseTail_conversa_state env msg
    (env.model.getD
      (textOpenTok ++ lit "Desculpe, estou enfrentando alguns problemas técnicos no momento. Poderia tentar novamente em instantes?" ++ endTok))
    (modelPhaseC1 env conv) world
  rw [modelPhaseC1_state] at h
  exact h

theorem orElse_some_thunk {α : Type _} (a : α) (f : Unit → Option α) :
    (some a).orElse f = some a := rfl

theorem orElse_none_thunk {α : Type _} (f : Unit → Option α) :
    (none : Option α).orElse f = f () := rfl

theorem routeIntercept_state (env : Env) (msg : Str) (c : Conversa) (world : World) :
    (routeIntercept env msg c world).conversa.state = c.state ∨
    (routeIntercept env msg c world).conversa.state = 4 ∨
    (routeIntercept env msg c world).conversa.state = 6 ∨
    (routeIntercept env msg c world).conversa.state = 7 ∨
    (c.state < 7 ∧ (routeIntercept env msg c world).conversa.state = c.state + 1) := by
  unfold routeIntercept
  dsimp only
  by_cases hc4 : c.state = 4
  · rw [if_pos hc4]
    rcases h4 : state4NumberSplice c msg with _ | p
    · simp only [h4, Option.map_none', orElse_none_thunk]
      rw [if_neg (by omega)]
      rw [orElse_none_thunk]
      rw [if_neg (by simp [hc4])]
      rw [orElse_none_thunk]
      rcases himg : imageRequestIntercept env c world msg with _ | out
      · exact modelPhase_conversa_state env msg c world
      · have h := imageRequestIntercept_state env c world msg out himg
        dsimp only
        tauto
    · have h5 := state4NumberSplice_state c msg p h4
      simp only [h4, Option.map_some', orElse_some_thunk]
      right; right; right; right
      exact ⟨by omega, by omega⟩
  · rw [if_neg hc4, orElse_none_thunk]
    by_cases hc5 : c.state = 5
    · rw [if_pos hc5]
      rcases h5 : state5Intercept c msg with _ | p
      · simp only [h5, Option.map_none', orElse_none_thunk]
        rw [if_neg (by simp [hc5])]
        rw [orElse_none_thunk]
        rcases himg : imageRequestIntercept env c world msg with _ | out
        · exact modelPhase_conversa_state env msg c world
        · have h := imageRequestIntercept_state env c world msg out himg
          dsimp only
          tauto
      · have hs := state5Intercept_state c msg p h5
        simp only [h5, Option.map_some', orElse_some_thunk]
        left
        exact hs
    · rw [if_neg hc5, orElse_none_thunk]
      by_cases hc6 : (decide (c.state = 6) && affirmative6 msg) = true
      · rw [if_pos hc6, orElse_some_thunk]
        have h := direct6Commit_conversa_state env c world msg
        dsimp only
        tauto
      · rw [if_neg hc6, orElse_none_thunk]
        rcases himg : imageRequestIntercept env c world msg with _ | out
        · exact modelPhase_conversa_state env msg c world
        · have h := imageRequestIntercept_state env c world msg out himg
          dsimp only
          tauto

/-- State-7 protection (`src/index.js:2855-2866`): with a tag-free model
output, a state-7 conversation without `pedidoId` triggers the alert and
is left untouched — not silently fixed. -/
theorem modelPhase_alert7 (env : Env) (msg : Str) (conv : Conversa) (world : World)
    (m : Str)
    (hm : env.model = some m)
    (ht : strContains m textOpenTok = false)
    (hv : strContains m voiceOpenTok = false)
    (hi : strContains m imageOpenTok = false)
    (hj : strContains m jsonOpenTok = false)
    (hc : strContains m confOpenTok = false)
    (hreq : requestToks.any (fun t => strContains m t) = false)
    (h7 : conv.state = 7) (hpid : conv.pedidoId = none) :
    (modelPhase env msg conv world).alert7 = true ∧
    (modelPhase env msg conv world).conversa.state = 7 ∧
    (modelPhase env msg conv world).conversa.pedidoId = none := by
  have hepd : extractPedidoData env m = none := by
    unfold extractPedidoData
    rw [extractBlock_none hj]
  have hsj : ∀ c w, stageJsonBlock env m c w = (c, w) := by
    intro c w
    unfold stageJsonBlock
    rw [hj]
    rfl
  have henr : enrichStep env m = m := by
    unfold enrichStep
    rw [hreq]
    rfl
  have hlt : lacksTagFormat m = true := by
    unfold lacksTagFormat
    rw [ht, hv, hi, hj]
    rfl
  unfold modelPhase
  rw [hm]
  simp only [Option.getD_some, hepd, hsj, henr, hlt, if_true]
  rw [processTagged_wrapped env m msg _ _ _ hv hi hj hc]
  refine ⟨?_, ?_, ?_⟩ <;> simp [h7, hpid]

/-- Any single turn moves the state to 4, 6 or 7, keeps it, or advances
it by one from below 7. -/
theorem pmi_conversa_state (env : Env) (phone msg : Str) (isAudio : Bool)
    (conv : Conversa) (world : World) :
    (processMessageInternally env phone msg isAudio conv world).conversa.state = conv.state ∨
    (processMessageInternally env phone msg isAudio conv world).conversa.state = 4 ∨
    (processMessageInternally env phone msg isAudio conv world).conversa.state = 6 ∨
    (processMessageInternally env phone msg isAudio conv world).conversa.state = 7 ∨
    (conv.state < 7 ∧
      (processMessageInternally env phone msg isAudio conv world).conversa.state =
        conv.state + 1) := by
  by_cases hph : phone.isEmpty = true
  · unfold processMessageInternally
    rw [if_pos hph]
    left
    rfl
  · by_cases hr : isResetMsg msg = true
    · unfold processMessageInternally
      rw [if_neg hph, if_pos hr]
      left
      rfl
    · rw [pmi_eq_route env phone msg isAudio conv world
        (by simpa using hph) (by simpa using hr)]
      have h := routeIntercept_state env msg
        { pmiCep env msg conv with
          mensagens := (pmiCep env msg conv).mensagens ++
            [⟨Role.user, if isAudio then lit "[Áudio]: " ++ msg else msg⟩] } world
      have hs : ({ pmiCep env msg conv with
          mensagens := (pmiCep env msg conv).mensagens ++
            [⟨Role.user, if isAudio then lit "[Áudio]: " ++ msg else msg⟩] } :
          Conversa).state = conv.state := pmiCep_state env msg conv
      rw [hs] at h
      exact h

/-- A sequence of turns on one conversation, threading the conversation
document and the stores. -/
def runTurns (env : Env) (phone : Str) (msgs : List Str) (conv : Conversa)
    (world : World) : Conversa × World :=
  msgs.foldl (fun cw m =>
    let o := processMessageInternally env phone m false cw.1 cw.2
    (o.conversa, o.world)) (conv, world)

/-- C4 (amended): (i) a single turn never takes the state beyond 7, and
(ii) neither does any sequence of turns; (iii) the state can decrease
without a reset — but only to 4 (the address-number revalidation edges)
or to 6 (the post-model staging) — contrary to the claimed monotonicity,
per `C4_counterexample`; (iv) an explicit reset command always yields a
freshly created conversation at state 0; (v) a state-7 conversation
without a `pedidoId` that reaches the model with a tag-free output is
flagged by the alert and left in state 7 with no `pedidoId` — logged,
not silently fixed. -/
theorem C4_state_machine :
    (∀ (env : Env) (phone msg : Str) (isAudio : Bool) (conv : Conversa) (world : World),
       conv.state ≤ 7 →
       (processMessageInternally env phone msg isAudio conv world).conversa.state ≤ 7) ∧
    (∀ (env : Env) (phone : Str) (msgs : List Str) (conv : Conversa) (world : World),
       conv.state ≤ 7 → (runTurns env phone msgs conv world).1.state ≤ 7) ∧
    (∀ (env : Env) (phone msg : Str) (isAudio : Bool) (conv : Conversa) (world : World),
       conv.state ≤ 7 →
       (processMessageInternally env phone msg isAudio conv world).conversa.state <
         conv.state →
       (processMessageInternally env phone msg isAudio conv world).conversa.state = 4 ∨
       (processMessageInternally env phone msg isAudio conv world).conversa.state = 6) ∧
    (∀ (phone msg : Str) (ex : Option Conversa) (stale : Bool),
       isResetMsg msg = true →
       getOrCreateConversation phone msg ex stale = ({ telefone := phone }, true) ∧
       (getOrCreateConversation phone msg ex stale).1.state = 0) ∧
    (∀ (env : Env) (phone msg m : Str) (conv : Conversa) (world : World),
       phone.isEmpty = false → isResetMsg msg = false → cepDetect msg = false →
       detectImageRequest msg = none →
       conv.state = 7 → conv.pedidoId = none →
       env.model = some m →
       strContains m textOpenTok = false →
       strContains m voiceOpenTok = false →
       strContains m imageOpenTok = false →
       strContains m jsonOpenTok = false →
       strContains m confOpenTok = false →
       requestToks.any (fun t => strContains m t) = false →
       (processMessageInternally env phone msg false conv world).alert7 = true ∧
       (processMessageInternally env phone msg false conv world).conversa.state = 7 ∧
       (processMessageInternally env phone msg false conv world).conversa.pedidoId = none) := by
  have hone : ∀ (env : Env) (phone msg : Str) (isAudio : Bool) (conv : Conversa)
      (world : World), conv.state ≤ 7 →
      (processMessageInternally env phone msg isAudio conv world).conversa.state ≤ 7 := by
    intro env phone msg isAudio conv world hle
    rcases pmi_conversa_state env phone msg isAudio conv world with
      h | h | h | h | ⟨hlt, h⟩ <;> omega
  refine ⟨hone, ?_, ?_, ?_, ?_⟩
  · intro env phone msgs
    induction msgs with
    | nil => intro conv world hle; simpa [runTurns] using hle
    | cons m ms ih =>
      intro conv world hle
      have hstep := hone env phone m false conv world hle
      have := ih (processMessageInternally env phone m false conv world).conversa
        (processMessageInternally env phone m false conv world).world hstep
      simpa [runTurns, List.foldl_cons] using this
  · intro env phone msg isAudio conv world hle hdec
    rcases pmi_conversa_state env phone msg isAudio conv world with
      h | h | h | h | ⟨hlt, h⟩ <;> omega
  · intro phone msg ex stale hreset
    unfold getOrCreateConversation
    rw [if_pos hreset]
    exact ⟨rfl, rfl⟩
  · intro env phone msg m conv world hph hr hcep himg h7 hpid hm ht hv hi hj hc hreq
    rw [pmi_to_model env phone msg conv world hph hr hcep
      (by simp [h7]) (by simp [h7]) (by simp [h7]) himg]
    exact modelPhase_alert7 env msg _ world m hm ht hv hi hj hc hreq h7 hpid

/-- C4 witness fixture: a state-7 conversation without a committed
order. -/
def convC4a : Conversa := { telefone := lit "551", state := 7 }

/-- C4 witness: the five conjuncts at concrete inputs — including the
decrease-to-4 instance of `c4run` and the state-7 alert turn. -/
theorem C4_state_machine_witness :
    (processMessageInternally envC8ok (lit "551") (lit "aguarde") false
      { telefone := lit "551", state := 2 } {}).conversa.state ≤ 7 ∧
    (runTurns envC8ok (lit "551") [lit "oi", lit "aguarde"]
      { telefone := lit "551" } {}).1.state ≤ 7 ∧
    ((processMessageInternally envC4 (lit "551") (lit "aguarde") false
        { telefone := lit "551", state := 6 } {}).conversa.state = 4 ∨
     (processMessageInternally envC4 (lit "551") (lit "aguarde") false
        { telefone := lit "551", state := 6 } {}).conversa.state = 6) ∧
    getOrCreateConversation (lit "551") (lit "reiniciar") (some convC1) false =
      ({ telefone := lit "551" }, true) ∧
    (processMessageInternally envC8ok (lit "551") (lit "aguarde") false convC4a {}).alert7 =
      true :=
  ⟨C4_state_machine.1 envC8ok (lit "551") (lit "aguarde") false
      { telefone := lit "551", state := 2 } {} (by decide),
   C4_state_machine.2.1 envC8ok (lit "551") [lit "oi", lit "aguarde"]
      { telefone := lit "551" } {} (by decide),
   C4_state_machine.2.2.1 envC4 (lit "551") (lit "aguarde") false
      { telefone := lit "551", state := 6 } {} (by decide) (by decide),
   (C4_state_machine.2.2.2.1 (lit "551") (lit "reiniciar") (some convC1) false
      (by decide)).1,
   (C4_state_machine.2.2.2.2 envC8ok (lit "551") (lit "aguarde")
      (lit "Claro, posso ajudar com o seu pedido.") convC4a {}
      (by decide) (by decide) (by decide) (by decide) (by decide) (by decide)
      (by decide) (by decide) (by decide) (by decide) (by decide) (by decide)
      (by decide)).1⟩

end Pizzaria
